import Mathlib

/-!
# Shallow embedding of the arcticwolf NFSv3 server core

This file embeds, in Lean 4, the parts of the `polrstorage/arcticwolf`
user-space NFSv3 server that the verified claims are about:

* the XDR byte-packing primitives and the `fattr3` wire encoding
  (the `xdr_codec` pack/unpack semantics and the xdrgen-generated types are
  not part of the repository sources; they are modelled from the spec,
  sections 4.1 and 3),
* the ONC-RPC envelope helpers of `protocol/v3/rpc.rs` (that file is absent
  from the sources; the helpers are modelled from the spec, section 4.3),
* the record-marking read loop and per-message error handling of
  `rpc/server.rs`,
* the NFS procedure dispatcher `nfs/dispatcher.rs` and all NFS procedure
  handlers (`nfs/*.rs`),
* the MOUNT and PORTMAP dispatchers and handlers,
* the file-handle directory `fsal/handle.rs`,
* the `LocalFilesystem::remove` path of `fsal/local/mod.rs`.

Bytes are modelled as natural numbers below 256 in `List Nat`; Rust machine
integers are `Nat` with explicit `% 2^w` at the points where the source
truncates.  The `DefaultHasher` 64-bit hash used by `fsal/handle.rs` and
`mount/mnt.rs` is an implementation-defined pure function of its input and is
taken as an explicit function parameter `h64`.  The pluggable `Filesystem`
trait (`fsal/mod.rs`) is modelled as a structure of pure functions; FSAL
errors are `anyhow` error strings, matching the string-based error mapping
performed by the handlers.
-/

namespace ArcticWolf

/-! ## Bytes -/

/-- A byte string: each element is a value below 256. -/
abbrev Bytes := List Nat

/-- Big-endian bytes of a 32-bit value (`u32::to_be_bytes`); the input is
truncated to 32 bits as in Rust. -/
def be32 (n : Nat) : Bytes :=
  [n / 2 ^ 24 % 256, n / 2 ^ 16 % 256, n / 2 ^ 8 % 256, n % 256]

/-- Big-endian bytes of a 64-bit value (`u64::to_be_bytes`); the input is
truncated to 64 bits as in Rust. -/
def be64 (n : Nat) : Bytes :=
  [n / 2 ^ 56 % 256, n / 2 ^ 48 % 256, n / 2 ^ 40 % 256,
   n / 2 ^ 32 % 256, n / 2 ^ 24 % 256, n / 2 ^ 16 % 256, n / 2 ^ 8 % 256, n % 256]

theorem be32_length (n : Nat) : (be32 n).length = 4 := rfl

theorem be64_length (n : Nat) : (be64 n).length = 8 := rfl

/-! ## XDR primitives

Modelled from the spec, section 4.1 (the `xdr_codec` crate that the handlers
call `pack`/`unpack` on is an external dependency, and the xdrgen-generated
`Pack`/`Unpack` impls are produced at build time from XDR files absent from
the sources): 32/64-bit integers are big-endian, booleans are 4 bytes 0/1,
enums are 32-bit signed integers, variable opaque/string is a 32-bit length
followed by the data and 0-3 zero padding bytes. -/

/-- `u32::pack`: 4 bytes big-endian. -/
def packU32 (n : Nat) : Bytes := be32 (n % 2 ^ 32)

/-- `u64::pack`: 8 bytes big-endian. -/
def packU64 (n : Nat) : Bytes := be64 (n % 2 ^ 64)

/-- `i32::pack`: two's complement, 4 bytes big-endian. -/
def packI32 (i : Int) : Bytes := be32 (i % 2 ^ 32).toNat

/-- `bool::pack`: 4 bytes, 0 or 1. -/
def packBool (b : Bool) : Bytes := if b then [0, 0, 0, 1] else [0, 0, 0, 0]

/-- Number of zero bytes needed to pad `n` bytes to a 4-byte boundary;
the handlers compute this as `(4 - (len % 4)) % 4`. -/
def pad4 (n : Nat) : Nat := (4 - n % 4) % 4

/-- XDR variable-length opaque: 32-bit length, data, zero padding. -/
def packOpaqueVar (d : Bytes) : Bytes :=
  packU32 d.length ++ d ++ List.replicate (pad4 d.length) 0

theorem packU32_length (n : Nat) : (packU32 n).length = 4 := rfl

theorem packI32_length (i : Int) : (packI32 i).length = 4 := rfl

theorem packBool_length (b : Bool) : (packBool b).length = 4 := by
  cases b <;> rfl

/-! ## XDR decoding primitives

Decoders consume a byte list at an offset and return the decoded value with
the next offset, or `none` on a short buffer or invalid encoding. -/

/-- Read one byte (0 when out of range; all uses are bounds-checked). -/
def byteAt (b : Bytes) (i : Nat) : Nat := b.getD i 0

/-- Big-endian 32-bit value at offset `off` (no bounds check). -/
def beValAt (b : Bytes) (off : Nat) : Nat :=
  byteAt b off * 2 ^ 24 + byteAt b (off + 1) * 2 ^ 16 +
  byteAt b (off + 2) * 2 ^ 8 + byteAt b (off + 3)

/-- Big-endian 64-bit value at offset `off` (no bounds check). -/
def beValAt64 (b : Bytes) (off : Nat) : Nat :=
  beValAt b off * 2 ^ 32 + beValAt b (off + 4)

/-- Decode an XDR unsigned 32-bit integer. -/
def rdU32 (b : Bytes) (off : Nat) : Option (Nat × Nat) :=
  if off + 4 ≤ b.length then some (beValAt b off, off + 4) else none

/-- Decode an XDR unsigned 64-bit integer. -/
def rdU64 (b : Bytes) (off : Nat) : Option (Nat × Nat) :=
  if off + 8 ≤ b.length then some (beValAt64 b off, off + 8) else none

/-- Decode an XDR boolean: 0 or 1; anything else is a decode failure. -/
def rdBool (b : Bytes) (off : Nat) : Option (Bool × Nat) :=
  match rdU32 b off with
  | some (0, off') => some (false, off')
  | some (1, off') => some (true, off')
  | _ => none

/-- Decode an XDR enum whose declared values are `allowed`. -/
def rdEnum (allowed : List Nat) (b : Bytes) (off : Nat) : Option (Nat × Nat) :=
  match rdU32 b off with
  | some (v, off') => if v ∈ allowed then some (v, off') else none
  | none => none

/-- Decode an XDR fixed-length opaque of `n` bytes (with padding consumed). -/
def rdFixedOpaque (n : Nat) (b : Bytes) (off : Nat) : Option (Bytes × Nat) :=
  if off + n + pad4 n ≤ b.length then
    some ((b.drop off).take n, off + n + pad4 n)
  else none

/-- Decode an XDR variable-length opaque: length, data, padding. -/
def rdOpaqueVar (b : Bytes) (off : Nat) : Option (Bytes × Nat) :=
  match rdU32 b off with
  | some (len, off') =>
    if off' + len + pad4 len ≤ b.length then
      some ((b.drop off').take len, off' + len + pad4 len)
    else none
  | none => none

/-- A UTF-8 continuation byte (`0b10xxxxxx`). -/
def isCont (c : Nat) : Bool := 0x80 ≤ c && c < 0xC0

/-- The UTF-8 validity check of `String::from_utf8`
(`core::str::validations`): ASCII, 2/3/4-byte sequences with overlong,
surrogate and range rejection. -/
def validUTF8 : Bytes → Bool
  | [] => true
  | b :: rest =>
    if b < 0x80 then validUTF8 rest
    else if b < 0xC2 then false
    else if b < 0xE0 then
      match rest with
      | c1 :: r => isCont c1 && validUTF8 r
      | _ => false
    else if b < 0xF0 then
      match rest with
      | c1 :: c2 :: r =>
        (if b = 0xE0 then 0xA0 ≤ c1 && c1 < 0xC0
         else if b = 0xED then 0x80 ≤ c1 && c1 < 0xA0
         else isCont c1) && isCont c2 && validUTF8 r
      | _ => false
    else if b < 0xF5 then
      match rest with
      | c1 :: c2 :: c3 :: r =>
        (if b = 0xF0 then 0x90 ≤ c1 && c1 < 0xC0
         else if b = 0xF4 then 0x80 ≤ c1 && c1 < 0x90
         else isCont c1) && isCont c2 && isCont c3 && validUTF8 r
      | _ => false
    else false

/-- Decode an XDR string: variable opaque whose bytes must be valid UTF-8
(`xdr_codec` decodes strings through `String::from_utf8`).  The decoded
value is kept as its byte string. -/
def rdString (b : Bytes) (off : Nat) : Option (Bytes × Nat) :=
  match rdOpaqueVar b off with
  | some (s, off') => if validUTF8 s then some (s, off') else none
  | none => none

/-! ## FSAL domain types (`fsal/mod.rs`) -/

/-- `fsal::FileType`. -/
inductive FileType where
  | regularFile | directory | blockDevice | charDevice
  | symbolicLink | socket | namedPipe
deriving DecidableEq, Repr

/-- `fsal::FileTime`: seconds (u64) and nanoseconds (u32). -/
structure FileTime where
  seconds : Nat
  nseconds : Nat
deriving DecidableEq, Repr

/-- `fsal::FileAttributes`. -/
structure FileAttributes where
  ftype : FileType
  mode : Nat
  nlink : Nat
  uid : Nat
  gid : Nat
  size : Nat
  used : Nat
  rdev : Nat × Nat
  fsid : Nat
  fileid : Nat
  atime : FileTime
  mtime : FileTime
  ctime : FileTime
deriving DecidableEq, Repr

/-- `fsal::DirEntry` (names are byte strings of the Rust `String`). -/
structure DirEntry where
  fileid : Nat
  name : Bytes
  file_type : FileType
deriving DecidableEq, Repr

/-! ## NFS wire types (`protocol/v3/nfs.rs` and its generated module)

The xdrgen-generated type definitions and their `Pack` impls are produced at
build time from `xdr/v3/nfs.x`, which is absent from the sources; the wire
layout is modelled from the spec, sections 3 and 4.1 (fattr3 field list, with
time seconds serialized as 32 bits). -/

/-- `nfstime3`: u32 seconds, u32 nseconds. -/
structure Nfstime3 where
  seconds : Nat
  nseconds : Nat
deriving DecidableEq, Repr

/-- `fattr3` as generated from nfs.x (`type_` holds the ftype3 enum value;
`rdev` is the u64 the middleware builds from the major/minor pair). -/
structure Fattr3 where
  type_ : Nat
  mode : Nat
  nlink : Nat
  uid : Nat
  gid : Nat
  size : Nat
  used : Nat
  rdev : Nat
  fsid : Nat
  fileid : Nat
  atime : Nfstime3
  mtime : Nfstime3
  ctime : Nfstime3
deriving DecidableEq, Repr

/-- `nfstime3::pack`: two 32-bit values. -/
def packNfstime3 (t : Nfstime3) : Bytes := packU32 t.seconds ++ packU32 t.nseconds

/-- `fattr3::pack`: enum, five u32, five u64, three nfstime3 (84 bytes). -/
def packFattr3 (a : Fattr3) : Bytes :=
  packI32 a.type_ ++ packU32 a.mode ++ packU32 a.nlink ++ packU32 a.uid ++
  packU32 a.gid ++ packU64 a.size ++ packU64 a.used ++ packU64 a.rdev ++
  packU64 a.fsid ++ packU64 a.fileid ++ packNfstime3 a.atime ++
  packNfstime3 a.mtime ++ packNfstime3 a.ctime

/-- `ftype3` enum value of a FSAL file type (`NfsMessage::fsal_to_fattr3`). -/
def ftype3Val : FileType → Nat
  | .regularFile => 1
  | .directory => 2
  | .blockDevice => 3
  | .charDevice => 4
  | .symbolicLink => 5
  | .socket => 6
  | .namedPipe => 7

/-- `NfsMessage::fsal_to_fattr3` (`protocol/v3/nfs.rs`): converts FSAL
attributes to the wire `fattr3`; rdev packs major in the high 32 bits and
time seconds are cast down to u32. -/
def fsal_to_fattr3 (a : FileAttributes) : Fattr3 :=
  { type_ := ftype3Val a.ftype
    mode := a.mode
    nlink := a.nlink
    uid := a.uid
    gid := a.gid
    size := a.size
    used := a.used
    rdev := a.rdev.1 % 2 ^ 32 * 2 ^ 32 + a.rdev.2 % 2 ^ 32
    fsid := a.fsid
    fileid := a.fileid
    atime := ⟨a.atime.seconds % 2 ^ 32, a.atime.nseconds⟩
    mtime := ⟨a.mtime.seconds % 2 ^ 32, a.mtime.nseconds⟩
    ctime := ⟨a.ctime.seconds % 2 ^ 32, a.ctime.nseconds⟩ }

/-- The byte sequence every handler emits for a `post_op_attr`: the boolean
discriminator, then the 84 `fattr3` bytes when the discriminator is TRUE
(the handlers inline `bool::pack` followed by `fattr3::pack`). -/
def encodePostOpAttr : Option Fattr3 → Bytes
  | some a => packBool true ++ packFattr3 a
  | none => packBool false

/-- nfsstat3 codes used by the handlers. -/
def NFS3_OK : Int := 0
def NFS3ERR_NOENT : Int := 2
def NFS3ERR_IO : Int := 5
def NFS3ERR_ACCES : Int := 13
def NFS3ERR_EXIST : Int := 17
def NFS3ERR_XDEV : Int := 18
def NFS3ERR_NOTDIR : Int := 20
def NFS3ERR_ISDIR : Int := 21
def NFS3ERR_INVAL : Int := 22
def NFS3ERR_NOSPC : Int := 28
def NFS3ERR_ROFS : Int := 30
def NFS3ERR_NAMETOOLONG : Int := 63
def NFS3ERR_NOTEMPTY : Int := 66
def NFS3ERR_STALE : Int := 70
def NFS3ERR_NOT_SYNC : Int := 10002
def NFS3ERR_NOTSUPP : Int := 10004

/-! ## ONC-RPC envelope (`protocol/v3/rpc.rs`)

Modelled from the spec: `protocol/v3/rpc.rs` is declared in
`protocol/v3/mod.rs` but absent from the sources.  Spec section 4.3 gives the
CALL layout (six 32-bit header fields, then cred and verf `opaque_auth`) and
the reply layouts: a success reply is `xid, 1, 0, verf(flavor=0,length=0),
0 (SUCCESS)` followed by the result bytes, and accept_stat values are
SUCCESS=0, PROG_UNAVAIL=1, PROG_MISMATCH=2, PROC_UNAVAIL=3, GARBAGE_ARGS=4. -/

/-- `rpc_call_msg`: the fixed CALL header fields. -/
structure RpcCallMsg where
  xid : Nat
  prog : Nat
  vers : Nat
  proc_ : Nat
deriving DecidableEq, Repr

/-- Modelled from the spec: `RpcMessage::deserialize_call` parses the six
32-bit header fields (xid, msg_type=0, rpc_version=2, program, version,
procedure); a short buffer or a non-CALL message is an error. -/
def deserialize_call (data : Bytes) : Except String RpcCallMsg :=
  if data.length < 24 then .error "RPC message too short for call header"
  else if beValAt data 4 ≠ 0 then .error "not an RPC CALL message"
  else if beValAt data 8 ≠ 2 then .error "unsupported RPC version"
  else .ok { xid := beValAt data 0, prog := beValAt data 12,
             vers := beValAt data 16, proc_ := beValAt data 20 }

/-- Modelled from the spec: the 24-byte MSG_ACCEPTED reply header with the
given accept_stat — xid, msg_type REPLY(1), reply_stat MSG_ACCEPTED(0),
verf AUTH_NONE (flavor 0, length 0), accept_stat. -/
def replyHeader (xid : Nat) (acceptStat : Nat) : Bytes :=
  packU32 xid ++ packU32 1 ++ packU32 0 ++ packU32 0 ++ packU32 0 ++
  packU32 acceptStat

/-- Modelled from the spec: `RpcMessage::create_success_reply_with_data` —
the SUCCESS reply header followed by the procedure result bytes. -/
def create_success_reply_with_data (xid : Nat) (data : Bytes) : Bytes :=
  replyHeader xid 0 ++ data

/-- Modelled from the spec: `RpcMessage::serialize_reply` of
`RpcMessage::create_null_reply xid` — a SUCCESS reply with no result
bytes. -/
def null_reply (xid : Nat) : Bytes := replyHeader xid 0

/-- Modelled from the spec: `RpcMessage::create_prog_unavail_reply` — an
MSG_ACCEPTED reply with accept_stat PROG_UNAVAIL (1). -/
def create_prog_unavail_reply (xid : Nat) : Bytes := replyHeader xid 1

theorem replyHeader_take4 (xid acceptStat : Nat) :
    (replyHeader xid acceptStat).take 4 = packU32 xid := rfl

/-! ## The `Filesystem` trait (`fsal/mod.rs`)

The handlers receive a `&dyn Filesystem`; it is modelled as a structure of
pure functions.  FSAL errors are the `anyhow` error strings the handlers
match on.  Rust `&str` names travel as byte strings. -/

/-- The pluggable filesystem backend interface. -/
structure Filesystem where
  root_handle : Bytes
  lookup : Bytes → Bytes → Except String Bytes
  getattr : Bytes → Except String FileAttributes
  read : Bytes → Nat → Nat → Except String Bytes
  readdir : Bytes → Nat → Nat → Except String (List DirEntry × Bool)
  write : Bytes → Nat → Bytes → Except String Nat
  setattr_size : Bytes → Nat → Except String Unit
  setattr_mode : Bytes → Nat → Except String Unit
  setattr_owner : Bytes → Option Nat → Option Nat → Except String Unit
  create : Bytes → Bytes → Nat → Except String Bytes
  remove : Bytes → Bytes → Except String Unit
  mkdir : Bytes → Bytes → Nat → Except String Bytes
  rmdir : Bytes → Bytes → Except String Unit
  rename : Bytes → Bytes → Bytes → Bytes → Except String Unit
  symlink : Bytes → Bytes → Bytes → Except String Bytes
  readlink : Bytes → Except String Bytes
  link : Bytes → Bytes → Bytes → Except String Bytes
  commit : Bytes → Nat → Nat → Except String Unit
  mknod : Bytes → Bytes → FileType → Nat → Nat × Nat → Except String Bytes

/-- Rust `str::contains` on error messages. -/
def strContains (hay needle : String) : Bool :=
  hay.toList.tails.any (fun t => needle.toList.isPrefixOf t)

/-! ## NFS argument decoders (`NfsMessage::deserialize_*`)

The `Unpack` impls are xdrgen-generated from the absent `xdr/v3/nfs.x`;
modelled from the spec (section 4.1 primitives; section 4.8 per-procedure
argument shapes). -/

/-- Wrap an optional decode result as the `anyhow` result the middleware
returns. -/
def ofOpt (msg : String) : Option α → Except String α
  | some a => .ok a
  | none => .error msg

/-- Decode `nfstime3`. -/
def rdNfstime3 (b : Bytes) (off : Nat) : Option (Nfstime3 × Nat) := do
  let (s, o1) ← rdU32 b off
  let (ns, o2) ← rdU32 b o1
  pure (⟨s, ns⟩, o2)

/-- A bool-discriminated optional u32 (`set_mode3`, `set_uid3`,
`set_gid3`). -/
def rdOptU32 (b : Bytes) (off : Nat) : Option (Option Nat × Nat) := do
  let (flag, o1) ← rdBool b off
  if flag then
    let (v, o2) ← rdU32 b o1
    pure (some v, o2)
  else
    pure (none, o1)

/-- A bool-discriminated optional u64 (`set_size3`). -/
def rdOptU64 (b : Bytes) (off : Nat) : Option (Option Nat × Nat) := do
  let (flag, o1) ← rdBool b off
  if flag then
    let (v, o2) ← rdU64 b o1
    pure (some v, o2)
  else
    pure (none, o1)

/-- `set_atime` / `set_mtime`: a `time_how` discriminant; a client time
follows only for SET_TO_CLIENT_TIME (2). -/
inductive SetTime where
  | dontChange
  | serverTime
  | clientTime (t : Nfstime3)
deriving DecidableEq, Repr

/-- Decode `set_atime` / `set_mtime`. -/
def rdSetTime (b : Bytes) (off : Nat) : Option (SetTime × Nat) := do
  let (how, o1) ← rdEnum [0, 1, 2] b off
  match how with
  | 0 => pure (.dontChange, o1)
  | 1 => pure (.serverTime, o1)
  | _ =>
    let (t, o2) ← rdNfstime3 b o1
    pure (.clientTime t, o2)

/-- `sattr3`. -/
structure Sattr3 where
  mode : Option Nat
  uid : Option Nat
  gid : Option Nat
  size : Option Nat
  atime : SetTime
  mtime : SetTime
deriving DecidableEq, Repr

/-- Decode `sattr3`. -/
def rdSattr3 (b : Bytes) (off : Nat) : Option (Sattr3 × Nat) := do
  let (mode, o1) ← rdOptU32 b off
  let (uid, o2) ← rdOptU32 b o1
  let (gid, o3) ← rdOptU32 b o2
  let (size, o4) ← rdOptU64 b o3
  let (atime, o5) ← rdSetTime b o4
  let (mtime, o6) ← rdSetTime b o5
  pure (⟨mode, uid, gid, size, atime, mtime⟩, o6)

/-- `sattrguard3`: bool discriminator, ctime when the check is requested
(the object ctime defaults to zero when absent and is only read by the
handler when `check` is true). -/
structure Sattrguard3 where
  check : Bool
  obj_ctime : Nfstime3
deriving DecidableEq, Repr

/-- Decode `sattrguard3`. -/
def rdSattrguard3 (b : Bytes) (off : Nat) : Option (Sattrguard3 × Nat) := do
  let (check, o1) ← rdBool b off
  if check then
    let (t, o2) ← rdNfstime3 b o1
    pure (⟨true, t⟩, o2)
  else
    pure (⟨false, ⟨0, 0⟩⟩, o1)

/-- `GETATTR3args`. -/
structure GETATTR3args where
  object : Bytes
deriving DecidableEq, Repr

def deserialize_getattr3args (d : Bytes) : Except String GETATTR3args :=
  ofOpt "failed to unpack GETATTR3args" do
    let (fh, _) ← rdOpaqueVar d 0
    pure ⟨fh⟩

/-- `SETATTR3args`. -/
structure SETATTR3args where
  object : Bytes
  new_attributes : Sattr3
  guard : Sattrguard3
deriving DecidableEq, Repr

def deserialize_setattr3args (d : Bytes) : Except String SETATTR3args :=
  ofOpt "failed to unpack SETATTR3args" do
    let (fh, o1) ← rdOpaqueVar d 0
    let (attrs, o2) ← rdSattr3 d o1
    let (guard, _) ← rdSattrguard3 d o2
    pure ⟨fh, attrs, guard⟩

/-- `LOOKUP3args` (`diropargs3`). -/
structure LOOKUP3args where
  what_dir : Bytes
  name : Bytes
deriving DecidableEq, Repr

def deserialize_lookup3args (d : Bytes) : Except String LOOKUP3args :=
  ofOpt "failed to unpack LOOKUP3args" do
    let (fh, o1) ← rdOpaqueVar d 0
    let (name, _) ← rdString d o1
    pure ⟨fh, name⟩

/-- `ACCESS3args`. -/
structure ACCESS3args where
  object : Bytes
  access : Nat
deriving DecidableEq, Repr

def deserialize_access3args (d : Bytes) : Except String ACCESS3args :=
  ofOpt "failed to unpack ACCESS3args" do
    let (fh, o1) ← rdOpaqueVar d 0
    let (acc, _) ← rdU32 d o1
    pure ⟨fh, acc⟩

/-- `READLINK3args`. -/
structure READLINK3args where
  symlink : Bytes
deriving DecidableEq, Repr

def deserialize_readlink3args (d : Bytes) : Except String READLINK3args :=
  ofOpt "failed to unpack READLINK3args" do
    let (fh, _) ← rdOpaqueVar d 0
    pure ⟨fh⟩

/-- `READ3args`. -/
structure READ3args where
  file : Bytes
  offset : Nat
  count : Nat
deriving DecidableEq, Repr

def deserialize_read3args (d : Bytes) : Except String READ3args :=
  ofOpt "failed to unpack READ3args" do
    let (fh, o1) ← rdOpaqueVar d 0
    let (off, o2) ← rdU64 d o1
    let (cnt, _) ← rdU32 d o2
    pure ⟨fh, off, cnt⟩

/-- `WRITE3args` (`stable` holds the stable_how enum value 0..2). -/
structure WRITE3args where
  file : Bytes
  offset : Nat
  count : Nat
  stable : Nat
  data : Bytes
deriving DecidableEq, Repr

def deserialize_write3args (d : Bytes) : Except String WRITE3args :=
  ofOpt "failed to unpack WRITE3args" do
    let (fh, o1) ← rdOpaqueVar d 0
    let (off, o2) ← rdU64 d o1
    let (cnt, o3) ← rdU32 d o2
    let (st, o4) ← rdEnum [0, 1, 2] d o3
    let (data, _) ← rdOpaqueVar d o4
    pure ⟨fh, off, cnt, st, data⟩

/-- `createhow3`. -/
inductive Createhow3 where
  | unchecked (attrs : Sattr3)
  | guarded (attrs : Sattr3)
  | exclusive (verf : Bytes)
deriving DecidableEq, Repr

/-- `CREATE3args`. -/
structure CREATE3args where
  where_dir : Bytes
  name : Bytes
  how : Createhow3
deriving DecidableEq, Repr

def deserialize_create3args (d : Bytes) : Except String CREATE3args :=
  ofOpt "failed to unpack CREATE3args" do
    let (fh, o1) ← rdOpaqueVar d 0
    let (name, o2) ← rdString d o1
    let (disc, o3) ← rdEnum [0, 1, 2] d o2
    match disc with
    | 0 =>
      let (attrs, _) ← rdSattr3 d o3
      pure ⟨fh, name, .unchecked attrs⟩
    | 1 =>
      let (attrs, _) ← rdSattr3 d o3
      pure ⟨fh, name, .guarded attrs⟩
    | _ =>
      let (verf, _) ← rdFixedOpaque 8 d o3
      pure ⟨fh, name, .exclusive verf⟩

/-- `MKDIR3args`. -/
structure MKDIR3args where
  where_dir : Bytes
  name : Bytes
  attributes : Sattr3
deriving DecidableEq, Repr

def deserialize_mkdir3args (d : Bytes) : Except String MKDIR3args :=
  ofOpt "failed to unpack MKDIR3args" do
    let (fh, o1) ← rdOpaqueVar d 0
    let (name, o2) ← rdString d o1
    let (attrs, _) ← rdSattr3 d o2
    pure ⟨fh, name, attrs⟩

/-- `symlinkdata3`. -/
structure Symlinkdata3 where
  symlink_attributes : Sattr3
  symlink_data : Bytes
deriving DecidableEq, Repr

/-- `SYMLINK3args`. -/
structure SYMLINK3args where
  where_dir : Bytes
  name : Bytes
  symlink : Symlinkdata3
deriving DecidableEq, Repr

def deserialize_symlink3args (d : Bytes) : Except String SYMLINK3args :=
  ofOpt "failed to unpack SYMLINK3args" do
    let (fh, o1) ← rdOpaqueVar d 0
    let (name, o2) ← rdString d o1
    let (attrs, o3) ← rdSattr3 d o2
    let (target, _) ← rdString d o3
    pure ⟨fh, name, ⟨attrs, target⟩⟩

/-- `devicedata3`. -/
structure Devicedata3 where
  dev_attributes : Sattr3
  major : Nat
  minor : Nat
deriving DecidableEq, Repr

/-- `mknoddata3`: the union arms follow the ftype3 discriminant; only
BLK (3), CHR (4), SOCK (6) and FIFO (7) are declared. -/
inductive Mknoddata3 where
  | chr (dev : Devicedata3)
  | blk (dev : Devicedata3)
  | sock (attrs : Sattr3)
  | fifo (attrs : Sattr3)
deriving DecidableEq, Repr

/-- `MKNOD3args`. -/
structure MKNOD3args where
  where_dir : Bytes
  name : Bytes
  what : Mknoddata3
deriving DecidableEq, Repr

def deserialize_mknod3args (d : Bytes) : Except String MKNOD3args :=
  ofOpt "failed to unpack MKNOD3args" do
    let (fh, o1) ← rdOpaqueVar d 0
    let (name, o2) ← rdString d o1
    let (disc, o3) ← rdEnum [3, 4, 6, 7] d o2
    match disc with
    | 3 =>
      let (attrs, o4) ← rdSattr3 d o3
      let (major, o5) ← rdU32 d o4
      let (minor, _) ← rdU32 d o5
      pure ⟨fh, name, .blk ⟨attrs, major, minor⟩⟩
    | 4 =>
      let (attrs, o4) ← rdSattr3 d o3
      let (major, o5) ← rdU32 d o4
      let (minor, _) ← rdU32 d o5
      pure ⟨fh, name, .chr ⟨attrs, major, minor⟩⟩
    | 6 =>
      let (attrs, _) ← rdSattr3 d o3
      pure ⟨fh, name, .sock attrs⟩
    | _ =>
      let (attrs, _) ← rdSattr3 d o3
      pure ⟨fh, name, .fifo attrs⟩

/-- `REMOVE3args` (`diropargs3`). -/
structure REMOVE3args where
  dir : Bytes
  name : Bytes
deriving DecidableEq, Repr

def deserialize_remove3args (d : Bytes) : Except String REMOVE3args :=
  ofOpt "failed to unpack REMOVE3args" do
    let (fh, o1) ← rdOpaqueVar d 0
    let (name, _) ← rdString d o1
    pure ⟨fh, name⟩

/-- `RMDIR3args` (`diropargs3`). -/
structure RMDIR3args where
  dir : Bytes
  name : Bytes
deriving DecidableEq, Repr

def deserialize_rmdir3args (d : Bytes) : Except String RMDIR3args :=
  ofOpt "failed to unpack RMDIR3args" do
    let (fh, o1) ← rdOpaqueVar d 0
    let (name, _) ← rdString d o1
    pure ⟨fh, name⟩

/-- `RENAME3args`. -/
structure RENAME3args where
  from_dir : Bytes
  from_name : Bytes
  to_dir : Bytes
  to_name : Bytes
deriving DecidableEq, Repr

def deserialize_rename3args (d : Bytes) : Except String RENAME3args :=
  ofOpt "failed to unpack RENAME3args" do
    let (ffh, o1) ← rdOpaqueVar d 0
    let (fname, o2) ← rdString d o1
    let (tfh, o3) ← rdOpaqueVar d o2
    let (tname, _) ← rdString d o3
    pure ⟨ffh, fname, tfh, tname⟩

/-- `LINK3args`. -/
structure LINK3args where
  file : Bytes
  link_dir : Bytes
  name : Bytes
deriving DecidableEq, Repr

def deserialize_link3args (d : Bytes) : Except String LINK3args :=
  ofOpt "failed to unpack LINK3args" do
    let (fh, o1) ← rdOpaqueVar d 0
    let (dfh, o2) ← rdOpaqueVar d o1
    let (name, _) ← rdString d o2
    pure ⟨fh, dfh, name⟩

/-- `READDIR3args`. -/
structure READDIR3args where
  dir : Bytes
  cookie : Nat
  cookieverf : Bytes
  count : Nat
deriving DecidableEq, Repr

def deserialize_readdir3args (d : Bytes) : Except String READDIR3args :=
  ofOpt "failed to unpack READDIR3args" do
    let (fh, o1) ← rdOpaqueVar d 0
    let (cookie, o2) ← rdU64 d o1
    let (cv, o3) ← rdFixedOpaque 8 d o2
    let (cnt, _) ← rdU32 d o3
    pure ⟨fh, cookie, cv, cnt⟩

/-- `READDIRPLUS3args`. -/
structure READDIRPLUS3args where
  dir : Bytes
  cookie : Nat
  cookieverf : Bytes
  dircount : Nat
  maxcount : Nat
deriving DecidableEq, Repr

def deserialize_readdirplus3args (d : Bytes) : Except String READDIRPLUS3args :=
  ofOpt "failed to unpack READDIRPLUS3args" do
    let (fh, o1) ← rdOpaqueVar d 0
    let (cookie, o2) ← rdU64 d o1
    let (cv, o3) ← rdFixedOpaque 8 d o2
    let (dcnt, o4) ← rdU32 d o3
    let (mcnt, _) ← rdU32 d o4
    pure ⟨fh, cookie, cv, dcnt, mcnt⟩

/-- `FSSTAT3args`. -/
structure FSSTAT3args where
  fsroot : Bytes
deriving DecidableEq, Repr

def deserialize_fsstat3args (d : Bytes) : Except String FSSTAT3args :=
  ofOpt "failed to unpack FSSTAT3args" do
    let (fh, _) ← rdOpaqueVar d 0
    pure ⟨fh⟩

/-- `FSINFO3args`. -/
structure FSINFO3args where
  fsroot : Bytes
deriving DecidableEq, Repr

def deserialize_fsinfo3args (d : Bytes) : Except String FSINFO3args :=
  ofOpt "failed to unpack FSINFO3args" do
    let (fh, _) ← rdOpaqueVar d 0
    pure ⟨fh⟩

/-- `fhandle3::unpack`, used directly by `handle_pathconf`. -/
def unpack_fhandle3 (d : Bytes) : Except String Bytes :=
  ofOpt "failed to unpack fhandle3" do
    let (fh, _) ← rdOpaqueVar d 0
    pure fh

/-- `COMMIT3args`. -/
structure COMMIT3args where
  file : Bytes
  offset : Nat
  count : Nat
deriving DecidableEq, Repr

def deserialize_commit3args (d : Bytes) : Except String COMMIT3args :=
  ofOpt "failed to unpack COMMIT3args" do
    let (fh, o1) ← rdOpaqueVar d 0
    let (off, o2) ← rdU64 d o1
    let (cnt, _) ← rdU32 d o2
    pure ⟨fh, off, cnt⟩

/-! ## Error response builders (`protocol/v3/nfs.rs`) -/

/-- `NfsMessage::create_getattr_error_response`: just the status. -/
def create_getattr_error_response (st : Int) : Bytes := packI32 st

/-- `NfsMessage::create_lookup_error_response`: status + dir post_op_attr
FALSE. -/
def create_lookup_error_response (st : Int) : Bytes :=
  packI32 st ++ packBool false

/-- `NfsMessage::create_read_error_response`: status + post_op_attr FALSE. -/
def create_read_error_response (st : Int) : Bytes :=
  packI32 st ++ packBool false

/-- `NfsMessage::create_write_error_response`: status + wcc_data with both
sides FALSE. -/
def create_write_error_response (st : Int) : Bytes :=
  packI32 st ++ packBool false ++ packBool false

/-- `NfsMessage::create_setattr_error_response`. -/
def create_setattr_error_response (st : Int) : Bytes :=
  packI32 st ++ packBool false ++ packBool false

/-- `NfsMessage::create_create_error_response`. -/
def create_create_error_response (st : Int) : Bytes :=
  packI32 st ++ packBool false ++ packBool false

/-- `NfsMessage::create_fsstat_error_response`: status + post_op_attr
FALSE. -/
def create_fsstat_error_response (st : Int) : Bytes :=
  packI32 st ++ packBool false

/-- `NfsMessage::create_fsinfo_error_response`: status + post_op_attr
FALSE. -/
def create_fsinfo_error_response (st : Int) : Bytes :=
  packI32 st ++ packBool false

/-- `NfsMessage::create_readdir_error_response`: just the status. -/
def create_readdir_error_response (st : Int) : Bytes := packI32 st

/-- `NfsMessage::create_readdirplus_error_response`: just the status. -/
def create_readdirplus_error_response (st : Int) : Bytes := packI32 st

/-- `NfsMessage::create_fsinfo_ok` (`protocol/v3/nfs.rs`): status OK, a TRUE
post_op_attr, the seven size fields, maxfilesize, time_delta and
properties. -/
def create_fsinfo_ok (attrs : Fattr3) (rtmax rtpref rtmult wtmax wtpref wtmult
    dtpref : Nat) (maxfilesize : Nat) (tds tdns : Nat) (properties : Nat) :
    Bytes :=
  packI32 NFS3_OK ++ packBool true ++ packFattr3 attrs ++
  packU32 rtmax ++ packU32 rtpref ++ packU32 rtmult ++
  packU32 wtmax ++ packU32 wtpref ++ packU32 wtmult ++ packU32 dtpref ++
  packU64 maxfilesize ++ packNfstime3 ⟨tds, tdns⟩ ++ packU32 properties

/-! ## NFS procedure handlers (`nfs/*.rs`)

Each handler mirrors its source file: decode the arguments (propagating the
decode error through `?`), call the FSAL, map error strings to nfsstat3
codes, and wrap the hand-serialized result payload in a SUCCESS RPC reply. -/

/-- `nfs/null.rs` `handle_null`. -/
def handle_null (xid : Nat) : Except String Bytes :=
  .ok (null_reply xid)

/-- `nfs/getattr.rs` `handle_getattr`: every FSAL error becomes
NFS3ERR_STALE. -/
def handle_getattr (xid : Nat) (args_data : Bytes) (fs : Filesystem) :
    Except String Bytes :=
  match deserialize_getattr3args args_data with
  | .error e => .error e
  | .ok args =>
    match fs.getattr args.object with
    | .error _ =>
      .ok (create_success_reply_with_data xid
        (create_getattr_error_response NFS3ERR_STALE))
    | .ok attrs =>
      .ok (create_success_reply_with_data xid
        (packI32 NFS3_OK ++ packFattr3 (fsal_to_fattr3 attrs)))

/-- `nfs/setattr.rs` `handle_setattr`: guard check, then size, mode and
owner changes in that order (atime/mtime changes are skipped by the
source), then a final getattr for the reply attributes. -/
def handle_setattr (xid : Nat) (args_data : Bytes) (fs : Filesystem) :
    Except String Bytes :=
  match deserialize_setattr3args args_data with
  | .error e => .error e
  | .ok args =>
    let before := (fs.getattr args.object).toOption
    let guardFailed :=
      args.guard.check &&
        (match before with
         | some b =>
           b.ctime.seconds ≠ args.guard.obj_ctime.seconds ||
           b.ctime.nseconds ≠ args.guard.obj_ctime.nseconds
         | none => false)
    if guardFailed then
      .ok (create_success_reply_with_data xid
        (create_setattr_error_response NFS3ERR_NOT_SYNC))
    else
      let sizeStep : Except Int Unit :=
        match args.new_attributes.size with
        | some newSize =>
          match fs.setattr_size args.object newSize with
          | .ok _ => .ok ()
          | .error e =>
            .error (if strContains e "not found" then NFS3ERR_STALE
              else if strContains e "Permission denied" then NFS3ERR_ACCES
              else if strContains e "Read-only" then NFS3ERR_ROFS
              else NFS3ERR_IO)
        | none => .ok ()
      match sizeStep with
      | .error st =>
        .ok (create_success_reply_with_data xid
          (create_setattr_error_response st))
      | .ok _ =>
        let modeStep : Except Int Unit :=
          match args.new_attributes.mode with
          | some m =>
            match fs.setattr_mode args.object m with
            | .ok _ => .ok ()
            | .error e =>
              .error (if strContains e "not found" then NFS3ERR_STALE
                else if strContains e "Permission denied" then NFS3ERR_ACCES
                else NFS3ERR_IO)
          | none => .ok ()
        match modeStep with
        | .error st =>
          .ok (create_success_reply_with_data xid
            (create_setattr_error_response st))
        | .ok _ =>
          let uid := args.new_attributes.uid
          let gid := args.new_attributes.gid
          let ownerStep : Except Int Unit :=
            if uid.isSome || gid.isSome then
              match fs.setattr_owner args.object uid gid with
              | .ok _ => .ok ()
              | .error e =>
                .error (if strContains e "not found" then NFS3ERR_STALE
                  else if strContains e "Permission denied" then NFS3ERR_ACCES
                  else NFS3ERR_IO)
            else .ok ()
          match ownerStep with
          | .error st =>
            .ok (create_success_reply_with_data xid
              (create_setattr_error_response st))
          | .ok _ =>
            match fs.getattr args.object with
            | .error _ =>
              .ok (create_success_reply_with_data xid
                (create_setattr_error_response NFS3ERR_IO))
            | .ok after =>
              .ok (create_success_reply_with_data xid
                (packI32 NFS3_OK ++ packBool false ++ packBool true ++
                 packFattr3 (fsal_to_fattr3 after)))

/-- `nfs/lookup.rs` lookup-failure status mapping. -/
def lookupErrStatus (e : String) : Int :=
  if strContains e "not found" then NFS3ERR_NOENT
  else if strContains e "Invalid filename" then NFS3ERR_INVAL
  else if strContains e "Not a directory" then NFS3ERR_NOTDIR
  else NFS3ERR_IO

/-- `nfs/lookup.rs` `handle_lookup`. -/
def handle_lookup (xid : Nat) (args_data : Bytes) (fs : Filesystem) :
    Except String Bytes :=
  match deserialize_lookup3args args_data with
  | .error e => .error e
  | .ok args =>
    match fs.lookup args.what_dir args.name with
    | .error e =>
      .ok (create_success_reply_with_data xid
        (create_lookup_error_response (lookupErrStatus e)))
    | .ok file_handle =>
      match fs.getattr file_handle with
      | .error _ =>
        .ok (create_success_reply_with_data xid
          (create_lookup_error_response NFS3ERR_IO))
      | .ok obj_attrs =>
        -- when the directory getattr fails the source reuses the object
        -- attributes as a placeholder
        let dir_attrs := match fs.getattr args.what_dir with
          | .ok attrs => attrs
          | .error _ => obj_attrs
        .ok (create_success_reply_with_data xid
          (packI32 NFS3_OK ++ packOpaqueVar file_handle ++
           packBool true ++ packFattr3 (fsal_to_fattr3 obj_attrs) ++
           packBool true ++ packFattr3 (fsal_to_fattr3 dir_attrs)))

/-- The getattr-failure mapping shared by `access.rs`, `fsstat.rs` and
`fsinfo.rs`: STALE for handle errors, IO otherwise. -/
def staleOrIoStatus (e : String) : Int :=
  if strContains e "not found" || strContains e "Invalid handle" then
    NFS3ERR_STALE
  else NFS3ERR_IO

/-- `nfs/access.rs` `handle_access`: grants every requested bit, except that
the LOOKUP bit (0x2) is only granted on directories. -/
def handle_access (xid : Nat) (args_data : Bytes) (fs : Filesystem) :
    Except String Bytes :=
  match deserialize_access3args args_data with
  | .error e => .error e
  | .ok args =>
    match fs.getattr args.object with
    | .error e =>
      .ok (create_success_reply_with_data xid
        (packI32 (staleOrIoStatus e) ++ packBool false))
    | .ok file_attrs =>
      let g1 := if args.access &&& 0x1 ≠ 0 then 0x1 else 0
      let g2 := if args.access &&& 0x2 ≠ 0 && file_attrs.ftype = .directory
        then g1 ||| 0x2 else g1
      let g3 := if args.access &&& 0x4 ≠ 0 then g2 ||| 0x4 else g2
      let g4 := if args.access &&& 0x8 ≠ 0 then g3 ||| 0x8 else g3
      let g5 := if args.access &&& 0x10 ≠ 0 then g4 ||| 0x10 else g4
      let granted := if args.access &&& 0x20 ≠ 0 then g5 ||| 0x20 else g5
      .ok (create_success_reply_with_data xid
        (packI32 NFS3_OK ++ packBool true ++
         packFattr3 (fsal_to_fattr3 file_attrs) ++ packU32 granted))

/-- `nfs/readlink.rs` `map_error_to_status`. -/
def readlinkErrStatus (e : String) : Int :=
  if strContains e "No such file" || strContains e "not found" then NFS3ERR_NOENT
  else if strContains e "Permission denied" || strContains e "Access denied"
    then NFS3ERR_ACCES
  else if strContains e "Not a symbolic link" then NFS3ERR_INVAL
  else if strContains e "Invalid argument" then NFS3ERR_INVAL
  else NFS3ERR_IO

/-- `nfs/readlink.rs` `create_readlink_response` (fails when asked for a
success response without a target, as the source does). -/
def create_readlink_response (xid : Nat) (st : Int)
    (symlink_attr : Option Fattr3) (target : Option Bytes) :
    Except String Bytes :=
  let base := packI32 st ++ encodePostOpAttr symlink_attr
  if st = NFS3_OK then
    match target with
    | some t => .ok (create_success_reply_with_data xid
        (base ++ packU32 t.length ++ t ++ List.replicate (pad4 t.length) 0))
    | none => .error "Success status but no target provided"
  else .ok (create_success_reply_with_data xid base)

/-- `nfs/readlink.rs` `handle_readlink`. -/
def handle_readlink (xid : Nat) (args_data : Bytes) (fs : Filesystem) :
    Except String Bytes :=
  match deserialize_readlink3args args_data with
  | .error e => .error e
  | .ok args =>
    let before := (fs.getattr args.symlink).toOption
    match fs.readlink args.symlink with
    | .ok target =>
      let after := (fs.getattr args.symlink).toOption.map
        (fun a => fsal_to_fattr3 a)
      create_readlink_response xid NFS3_OK after (some target)
    | .error e =>
      create_readlink_response xid (readlinkErrStatus e)
        (before.map (fun a => fsal_to_fattr3 a)) none

/-- `nfs/read.rs` read-failure status mapping. -/
def readErrStatus (e : String) : Int :=
  if strContains e "not found" || strContains e "Invalid handle" then
    NFS3ERR_STALE
  else if strContains e "Not a file" then NFS3ERR_ISDIR
  else if strContains e "Permission denied" then NFS3ERR_ACCES
  else NFS3ERR_IO

/-- `nfs/read.rs` `handle_read`. -/
def handle_read (xid : Nat) (args_data : Bytes) (fs : Filesystem) :
    Except String Bytes :=
  match deserialize_read3args args_data with
  | .error e => .error e
  | .ok args =>
    match fs.read args.file args.offset args.count with
    | .error e =>
      .ok (create_success_reply_with_data xid
        (create_read_error_response (readErrStatus e)))
    | .ok data =>
      match fs.getattr args.file with
      | .error _ =>
        .ok (create_success_reply_with_data xid
          (create_read_error_response NFS3ERR_IO))
      | .ok file_attrs =>
        let bytes_read := data.length
        let eof := decide (args.offset + bytes_read ≥ file_attrs.size)
        .ok (create_success_reply_with_data xid
          (packI32 NFS3_OK ++ packBool true ++
           packFattr3 (fsal_to_fattr3 file_attrs) ++
           packU32 bytes_read ++ packBool eof ++
           packU32 data.length ++ data ++
           List.replicate (pad4 data.length) 0))

/-- The constant write verifier emitted by `nfs/write.rs` (line 119). -/
def writeVerfWRITE : Bytes := [0x00, 0x01, 0x02, 0x03, 0x04, 0x05, 0x06, 0x07]

/-- The constant write verifier emitted by `nfs/commit.rs` (line 65). -/
def writeVerfCOMMIT : Bytes := List.replicate 8 0

/-- `nfs/write.rs` write-failure status mapping. -/
def writeErrStatus (e : String) : Int :=
  if strContains e "not found" || strContains e "Invalid handle" then
    NFS3ERR_STALE
  else if strContains e "Not a file" then NFS3ERR_ISDIR
  else if strContains e "Permission denied" then NFS3ERR_ACCES
  else if strContains e "No space" then NFS3ERR_NOSPC
  else if strContains e "Read-only" then NFS3ERR_ROFS
  else NFS3ERR_IO

/-- `nfs/write.rs` `handle_write`: on success the reply carries wcc_data
(pre FALSE, post TRUE), the count, committed = FILE_SYNC (2), and the
8-byte constant verifier. -/
def handle_write (xid : Nat) (args_data : Bytes) (fs : Filesystem) :
    Except String Bytes :=
  match deserialize_write3args args_data with
  | .error e => .error e
  | .ok args =>
    -- before_attrs is fetched by the source but never used
    match fs.write args.file args.offset args.data with
    | .error e =>
      .ok (create_success_reply_with_data xid
        (create_write_error_response (writeErrStatus e)))
    | .ok bytes_written =>
      match fs.getattr args.file with
      | .error _ =>
        .ok (create_success_reply_with_data xid
          (create_write_error_response NFS3ERR_IO))
      | .ok after =>
        .ok (create_success_reply_with_data xid
          (packI32 NFS3_OK ++ packBool false ++ packBool true ++
           packFattr3 (fsal_to_fattr3 after) ++ packU32 bytes_written ++
           packI32 2 ++ writeVerfWRITE))

/-- A `post_op_fh3` as the handlers emit it: TRUE then the handle as a
variable-length opaque, or FALSE. -/
def encodePostOpFh : Option Bytes → Bytes
  | some h => packBool true ++ packU32 h.length ++ h ++
      List.replicate (pad4 h.length) 0
  | none => packBool false

/-- `nfs/create.rs` `handle_create`. -/
def handle_create (xid : Nat) (args_data : Bytes) (fs : Filesystem) :
    Except String Bytes :=
  match deserialize_create3args args_data with
  | .error e => .error e
  | .ok args =>
    -- before_dir_attrs is fetched by the source but never used
    let created : Except Int Bytes :=
      match args.how with
      | .unchecked attrs | .guarded attrs =>
        let mode := match attrs.mode with
          | some m => m
          | none => 0o644
        match fs.create args.where_dir args.name mode with
        | .ok h => .ok h
        | .error e =>
          .error (if strContains e "exists" then NFS3ERR_EXIST
            else if strContains e "not found" then NFS3ERR_NOENT
            else if strContains e "Not a directory" then NFS3ERR_NOTDIR
            else if strContains e "Permission denied" then NFS3ERR_ACCES
            else if strContains e "No space" then NFS3ERR_NOSPC
            else if strContains e "Read-only" then NFS3ERR_ROFS
            else NFS3ERR_IO)
      | .exclusive _ =>
        match fs.create args.where_dir args.name 0o644 with
        | .ok h => .ok h
        | .error e =>
          .error (if strContains e "exists" then NFS3ERR_EXIST else NFS3ERR_IO)
    match created with
    | .error st =>
      .ok (create_success_reply_with_data xid (create_create_error_response st))
    | .ok file_handle =>
      match fs.getattr file_handle with
      | .error _ =>
        .ok (create_success_reply_with_data xid
          (create_create_error_response NFS3ERR_IO))
      | .ok file_attrs =>
        match fs.getattr args.where_dir with
        | .error _ =>
          .ok (create_success_reply_with_data xid
            (create_create_error_response NFS3ERR_IO))
        | .ok dir_attrs =>
          .ok (create_success_reply_with_data xid
            (packI32 NFS3_OK ++ encodePostOpFh (some file_handle) ++
             packBool true ++ packFattr3 (fsal_to_fattr3 file_attrs) ++
             packBool false ++
             packBool true ++ packFattr3 (fsal_to_fattr3 dir_attrs)))

/-- `nfs/mkdir.rs` error mapping. -/
def mkdirErrStatus (e : String) : Int :=
  if strContains e "already exists" || strContains e "File exists" then
    NFS3ERR_EXIST
  else if strContains e "not found" || strContains e "No such" then
    NFS3ERR_NOENT
  else if strContains e "permission" || strContains e "Permission" then
    NFS3ERR_ACCES
  else NFS3ERR_IO

/-- `nfs/mkdir.rs` `create_mkdir_response`. -/
def create_mkdir_response (xid : Nat) (st : Int)
    (new_dir_handle : Option Bytes) (new_dir_attr : Option Fattr3)
    (parent_dir_attr : Option Fattr3) : Bytes :=
  create_success_reply_with_data xid
    (packI32 st ++
     (if st = NFS3_OK then
        encodePostOpFh new_dir_handle ++ encodePostOpAttr new_dir_attr
      else []) ++
     packBool false ++ encodePostOpAttr parent_dir_attr)

/-- `nfs/mkdir.rs` `handle_mkdir`. -/
def handle_mkdir (xid : Nat) (args_data : Bytes) (fs : Filesystem) :
    Except String Bytes :=
  match deserialize_mkdir3args args_data with
  | .error e => .error e
  | .ok args =>
    let dir_before := (fs.getattr args.where_dir).toOption
    let mode := match args.attributes.mode with
      | some m => m
      | none => 0o755
    match fs.mkdir args.where_dir args.name mode with
    | .ok new_dir_handle =>
      match fs.getattr new_dir_handle with
      | .error _ => .ok (create_mkdir_response xid NFS3_OK none none none)
      | .ok new_attr =>
        let dir_after := (fs.getattr args.where_dir).toOption.map
          (fun a => fsal_to_fattr3 a)
        .ok (create_mkdir_response xid NFS3_OK (some new_dir_handle)
          (some (fsal_to_fattr3 new_attr)) dir_after)
    | .error e =>
      let dir_after := (fs.getattr args.where_dir).toOption.map
        (fun a => fsal_to_fattr3 a)
      let _ := dir_before
      .ok (create_mkdir_response xid (mkdirErrStatus e) none none dir_after)

/-- `nfs/symlink.rs` `map_error_to_status` (applied to the debug-formatted
error string). -/
def symlinkErrStatus (e : String) : Int :=
  if strContains e "No such file" || strContains e "not found" then NFS3ERR_NOENT
  else if strContains e "already exists" then NFS3ERR_EXIST
  else if strContains e "Permission denied" || strContains e "Access denied"
    then NFS3ERR_ACCES
  else if strContains e "Not a directory" then NFS3ERR_NOTDIR
  else if strContains e "Name too long" then NFS3ERR_NAMETOOLONG
  else if strContains e "Read-only" then NFS3ERR_ROFS
  else if strContains e "No space" then NFS3ERR_NOSPC
  else NFS3ERR_IO

/-- `nfs/symlink.rs` `create_symlink_response`. -/
def create_symlink_response (xid : Nat) (st : Int)
    (symlink_handle : Option Bytes) (symlink_attr : Option Fattr3)
    (dir_attr : Option Fattr3) : Bytes :=
  create_success_reply_with_data xid
    (packI32 st ++
     (if st = NFS3_OK then
        encodePostOpFh symlink_handle ++ encodePostOpAttr symlink_attr
      else []) ++
     packBool false ++ encodePostOpAttr dir_attr)

/-- `nfs/symlink.rs` `handle_symlink`. -/
def handle_symlink (xid : Nat) (args_data : Bytes) (fs : Filesystem) :
    Except String Bytes :=
  match deserialize_symlink3args args_data with
  | .error e => .error e
  | .ok args =>
    let dir_before := (fs.getattr args.where_dir).toOption
    match fs.symlink args.where_dir args.name args.symlink.symlink_data with
    | .ok new_handle =>
      let symlink_attr := (fs.getattr new_handle).toOption.map
        (fun a => fsal_to_fattr3 a)
      let dir_after := (fs.getattr args.where_dir).toOption.map
        (fun a => fsal_to_fattr3 a)
      .ok (create_symlink_response xid NFS3_OK (some new_handle)
        symlink_attr dir_after)
    | .error e =>
      .ok (create_symlink_response xid (symlinkErrStatus e) none none
        (dir_before.map (fun a => fsal_to_fattr3 a)))

/-- `nfs/mknod.rs` `map_error_to_status` (on the lower-cased message). -/
def mknodErrStatus (e : String) : Int :=
  let m := e.toLower
  if strContains m "not found" || strContains m "no such file" then NFS3ERR_NOENT
  else if strContains m "permission denied" || strContains m "access denied" ||
      strContains m "operation not permitted" then NFS3ERR_ACCES
  else if strContains m "exists" || strContains m "already" then NFS3ERR_EXIST
  else if strContains m "not a directory" then NFS3ERR_NOTDIR
  else if strContains m "read-only" then NFS3ERR_ROFS
  else if strContains m "not supported" || strContains m "not fully supported"
    then NFS3ERR_NOTSUPP
  else NFS3ERR_IO

/-- `nfs/mknod.rs` `create_mknod_response`. -/
def create_mknod_response (xid : Nat) (st : Int) (obj_handle : Option Bytes)
    (obj_attr : Option Fattr3) (dir_attr : Option Fattr3) : Bytes :=
  create_success_reply_with_data xid
    (packI32 st ++
     (if st = NFS3_OK then
        encodePostOpFh obj_handle ++ encodePostOpAttr obj_attr
      else []) ++
     packBool false ++ encodePostOpAttr dir_attr)

/-- `nfs/mknod.rs` `extract_mode`. -/
def extract_mode (s : Sattr3) : Nat :=
  match s.mode with
  | some m => m
  | none => 0o666

/-- `nfs/mknod.rs` `handle_mknod`. -/
def handle_mknod (xid : Nat) (args_data : Bytes) (fs : Filesystem) :
    Except String Bytes :=
  match deserialize_mknod3args args_data with
  | .error e => .error e
  | .ok args =>
    let dir_before := (fs.getattr args.where_dir).toOption
    let (file_type, mode, rdev) :
        FileType × Nat × (Nat × Nat) :=
      match args.what with
      | .chr dev => (.charDevice, extract_mode dev.dev_attributes,
          (dev.major, dev.minor))
      | .blk dev => (.blockDevice, extract_mode dev.dev_attributes,
          (dev.major, dev.minor))
      | .sock attrs => (.socket, extract_mode attrs, (0, 0))
      | .fifo attrs => (.namedPipe, extract_mode attrs, (0, 0))
    match fs.mknod args.where_dir args.name file_type mode rdev with
    | .ok handle =>
      let obj_attr := (fs.getattr handle).toOption.map
        (fun a => fsal_to_fattr3 a)
      let dir_after := (fs.getattr args.where_dir).toOption.map
        (fun a => fsal_to_fattr3 a)
      .ok (create_mknod_response xid NFS3_OK (some handle) obj_attr dir_after)
    | .error e =>
      .ok (create_mknod_response xid (mknodErrStatus e) none none
        (dir_before.map (fun a => fsal_to_fattr3 a)))

/-- `nfs/remove.rs` error mapping (the io::Error downcast arm of the source
is unreachable for the string-typed errors of the model). -/
def removeErrStatus (e : String) : Int :=
  if strContains e "not found" || strContains e "No such" then NFS3ERR_NOENT
  else if strContains e "permission" || strContains e "Permission" then
    NFS3ERR_ACCES
  else if strContains e "directory" || strContains e "Is a directory" then
    NFS3ERR_ISDIR
  else NFS3ERR_IO

/-- `nfs/remove.rs` `create_remove_response`. -/
def create_remove_response (xid : Nat) (st : Int)
    (dir_attr : Option Fattr3) : Bytes :=
  create_success_reply_with_data xid
    (packI32 st ++ packBool false ++ encodePostOpAttr dir_attr)

/-- `nfs/remove.rs` `handle_remove`. -/
def handle_remove (xid : Nat) (args_data : Bytes) (fs : Filesystem) :
    Except String Bytes :=
  match deserialize_remove3args args_data with
  | .error e => .error e
  | .ok args =>
    let dir_before := (fs.getattr args.dir).toOption
    let _ := dir_before
    match fs.remove args.dir args.name with
    | .ok _ =>
      match fs.getattr args.dir with
      | .ok attr =>
        .ok (create_remove_response xid NFS3_OK (some (fsal_to_fattr3 attr)))
      | .error _ => .ok (create_remove_response xid NFS3_OK none)
    | .error e =>
      let dir_after := (fs.getattr args.dir).toOption.map
        (fun a => fsal_to_fattr3 a)
      .ok (create_remove_response xid (removeErrStatus e) dir_after)

/-- `nfs/rmdir.rs` error mapping. -/
def rmdirErrStatus (e : String) : Int :=
  if strContains e "not found" || strContains e "No such" then NFS3ERR_NOENT
  else if strContains e "permission" || strContains e "Permission" then
    NFS3ERR_ACCES
  else if strContains e "not empty" || strContains e "Directory not empty"
    then NFS3ERR_NOTEMPTY
  else if strContains e "not a directory" || strContains e "Not a directory"
    then NFS3ERR_NOTDIR
  else NFS3ERR_IO

/-- `nfs/rmdir.rs` `create_rmdir_response`. -/
def create_rmdir_response (xid : Nat) (st : Int)
    (dir_attr : Option Fattr3) : Bytes :=
  create_success_reply_with_data xid
    (packI32 st ++ packBool false ++ encodePostOpAttr dir_attr)

/-- `nfs/rmdir.rs` `handle_rmdir`. -/
def handle_rmdir (xid : Nat) (args_data : Bytes) (fs : Filesystem) :
    Except String Bytes :=
  match deserialize_rmdir3args args_data with
  | .error e => .error e
  | .ok args =>
    let dir_before := (fs.getattr args.dir).toOption
    let _ := dir_before
    match fs.rmdir args.dir args.name with
    | .ok _ =>
      match fs.getattr args.dir with
      | .ok attr =>
        .ok (create_rmdir_response xid NFS3_OK (some (fsal_to_fattr3 attr)))
      | .error _ => .ok (create_rmdir_response xid NFS3_OK none)
    | .error e =>
      let dir_after := (fs.getattr args.dir).toOption.map
        (fun a => fsal_to_fattr3 a)
      .ok (create_rmdir_response xid (rmdirErrStatus e) dir_after)

/-- `nfs/rename.rs` error mapping. -/
def renameErrStatus (e : String) : Int :=
  if strContains e "not found" || strContains e "No such" then NFS3ERR_NOENT
  else if strContains e "already exists" || strContains e "File exists" then
    NFS3ERR_EXIST
  else if strContains e "permission" || strContains e "Permission" then
    NFS3ERR_ACCES
  else if strContains e "not a directory" || strContains e "Not a directory"
    then NFS3ERR_NOTDIR
  else if strContains e "is a directory" || strContains e "Is a directory"
    then NFS3ERR_ISDIR
  else if strContains e "not empty" || strContains e "Directory not empty"
    then NFS3ERR_NOTEMPTY
  else if strContains e "cross-device" || strContains e "Invalid cross-device"
    then NFS3ERR_XDEV
  else NFS3ERR_IO

/-- `nfs/rename.rs` `create_rename_response`. -/
def create_rename_response (xid : Nat) (st : Int)
    (fromdir_attr todir_attr : Option Fattr3) : Bytes :=
  create_success_reply_with_data xid
    (packI32 st ++
     packBool false ++ encodePostOpAttr fromdir_attr ++
     packBool false ++ encodePostOpAttr todir_attr)

/-- `nfs/rename.rs` `handle_rename`. -/
def handle_rename (xid : Nat) (args_data : Bytes) (fs : Filesystem) :
    Except String Bytes :=
  match deserialize_rename3args args_data with
  | .error e => .error e
  | .ok args =>
    match fs.rename args.from_dir args.from_name args.to_dir args.to_name with
    | .ok _ =>
      let fromdir_after := (fs.getattr args.from_dir).toOption.map
        (fun a => fsal_to_fattr3 a)
      let todir_after := if args.from_dir = args.to_dir then fromdir_after
        else (fs.getattr args.to_dir).toOption.map (fun a => fsal_to_fattr3 a)
      .ok (create_rename_response xid NFS3_OK fromdir_after todir_after)
    | .error e =>
      let fromdir_after := (fs.getattr args.from_dir).toOption.map
        (fun a => fsal_to_fattr3 a)
      let todir_after := if args.from_dir = args.to_dir then fromdir_after
        else (fs.getattr args.to_dir).toOption.map (fun a => fsal_to_fattr3 a)
      .ok (create_rename_response xid (renameErrStatus e) fromdir_after
        todir_after)

/-- `nfs/link.rs` `map_error_to_status` (on the lower-cased message). -/
def linkErrStatus (e : String) : Int :=
  let m := e.toLower
  if strContains m "not found" || strContains m "no such file" then NFS3ERR_NOENT
  else if strContains m "already exists" || strContains m "file exists" then
    NFS3ERR_EXIST
  else if strContains m "permission denied" || strContains m "access denied"
    then NFS3ERR_ACCES
  else if strContains m "not a directory" then NFS3ERR_NOTDIR
  else if strContains m "is a directory" ||
      strContains m "cannot create hard link to directory" then NFS3ERR_ISDIR
  else if strContains m "cross-device" || strContains m "different filesystem"
    then NFS3ERR_XDEV
  else if strContains m "invalid" then NFS3ERR_INVAL
  else NFS3ERR_IO

/-- `nfs/link.rs` `create_link_response`. -/
def create_link_response (xid : Nat) (st : Int)
    (file_attr dir_attr : Option Fattr3) : Bytes :=
  create_success_reply_with_data xid
    (packI32 st ++ encodePostOpAttr file_attr ++
     packBool false ++ encodePostOpAttr dir_attr)

/-- `nfs/link.rs` `handle_link`. -/
def handle_link (xid : Nat) (args_data : Bytes) (fs : Filesystem) :
    Except String Bytes :=
  match deserialize_link3args args_data with
  | .error e => .error e
  | .ok args =>
    let file_before := (fs.getattr args.file).toOption
    let dir_before := (fs.getattr args.link_dir).toOption
    match fs.link args.file args.link_dir args.name with
    | .ok _ =>
      let file_after := (fs.getattr args.file).toOption.map
        (fun a => fsal_to_fattr3 a)
      let dir_after := (fs.getattr args.link_dir).toOption.map
        (fun a => fsal_to_fattr3 a)
      .ok (create_link_response xid NFS3_OK file_after dir_after)
    | .error e =>
      .ok (create_link_response xid (linkErrStatus e)
        (file_before.map (fun a => fsal_to_fattr3 a))
        (dir_before.map (fun a => fsal_to_fattr3 a)))

/-- The READDIR entry chain: TRUE, fileid, name, cookie per entry (the
cookie counter is incremented before each entry), then FALSE. -/
def encodeReaddirEntries (cookie : Nat) : List DirEntry → Bytes
  | [] => packBool false
  | e :: rest =>
    packBool true ++ packU64 e.fileid ++ packOpaqueVar e.name ++
    packU64 (cookie + 1) ++ encodeReaddirEntries (cookie + 1) rest

/-- `nfs/readdir.rs` `handle_readdir`: an all-zero cookieverf and a TRUE
post_op_attr on success; any FSAL failure maps to NFS3ERR_IO. -/
def handle_readdir (xid : Nat) (args_data : Bytes) (fs : Filesystem) :
    Except String Bytes :=
  match deserialize_readdir3args args_data with
  | .error e => .error e
  | .ok args =>
    match fs.getattr args.dir with
    | .error _ =>
      .ok (create_success_reply_with_data xid
        (create_readdir_error_response NFS3ERR_IO))
    | .ok dir_attr =>
      match fs.readdir args.dir args.cookie args.count with
      | .error _ =>
        .ok (create_success_reply_with_data xid
          (create_readdir_error_response NFS3ERR_IO))
      | .ok (entries, eof) =>
        .ok (create_success_reply_with_data xid
          (packI32 NFS3_OK ++ packBool true ++
           packFattr3 (fsal_to_fattr3 dir_attr) ++
           List.replicate 8 0 ++
           encodeReaddirEntries args.cookie entries ++ packBool eof))

/-- The READDIRPLUS entry chain: each entry additionally carries a
post_op_attr and post_op_fh3 obtained by a per-entry lookup+getattr;
failures degrade both to FALSE. -/
def encodeReaddirplusEntries (fs : Filesystem) (dir : Bytes) (cookie : Nat) :
    List DirEntry → Bytes
  | [] => packBool false
  | e :: rest =>
    packBool true ++ packU64 e.fileid ++ packOpaqueVar e.name ++
    packU64 (cookie + 1) ++
    (match fs.lookup dir e.name with
     | .ok entry_handle =>
       match fs.getattr entry_handle with
       | .ok entry_attr =>
         packBool true ++ packFattr3 (fsal_to_fattr3 entry_attr) ++
         packBool true ++ packOpaqueVar entry_handle
       | .error _ => packBool false ++ packBool false
     | .error _ => packBool false ++ packBool false) ++
    encodeReaddirplusEntries fs dir (cookie + 1) rest

/-- `nfs/readdirplus.rs` `handle_readdirplus`. -/
def handle_readdirplus (xid : Nat) (args_data : Bytes) (fs : Filesystem) :
    Except String Bytes :=
  match deserialize_readdirplus3args args_data with
  | .error e => .error e
  | .ok args =>
    match fs.getattr args.dir with
    | .error _ =>
      .ok (create_success_reply_with_data xid
        (create_readdirplus_error_response NFS3ERR_IO))
    | .ok dir_attr =>
      match fs.readdir args.dir args.cookie args.dircount with
      | .error _ =>
        .ok (create_success_reply_with_data xid
          (create_readdirplus_error_response NFS3ERR_IO))
      | .ok (entries, eof) =>
        .ok (create_success_reply_with_data xid
          (packI32 NFS3_OK ++ packBool true ++
           packFattr3 (fsal_to_fattr3 dir_attr) ++
           List.replicate 8 0 ++
           encodeReaddirplusEntries fs args.dir args.cookie entries ++
           packBool eof))

/-- `nfs/fsstat.rs` `handle_fsstat`: hardcoded statistics. -/
def handle_fsstat (xid : Nat) (args_data : Bytes) (fs : Filesystem) :
    Except String Bytes :=
  match deserialize_fsstat3args args_data with
  | .error e => .error e
  | .ok args =>
    match fs.getattr args.fsroot with
    | .error e =>
      .ok (create_success_reply_with_data xid
        (create_fsstat_error_response (staleOrIoStatus e)))
    | .ok obj_attrs =>
      .ok (create_success_reply_with_data xid
        (packI32 NFS3_OK ++ packBool true ++
         packFattr3 (fsal_to_fattr3 obj_attrs) ++
         packU64 (1024 * 1024 * 1024 * 100) ++
         packU64 (1024 * 1024 * 1024 * 50) ++
         packU64 (1024 * 1024 * 1024 * 50) ++
         packU64 1000000 ++ packU64 500000 ++ packU64 500000 ++ packU32 0))

/-- `nfs/fsinfo.rs` `handle_fsinfo`: hardcoded capability values. -/
def handle_fsinfo (xid : Nat) (args_data : Bytes) (fs : Filesystem) :
    Except String Bytes :=
  match deserialize_fsinfo3args args_data with
  | .error e => .error e
  | .ok args =>
    match fs.getattr args.fsroot with
    | .error e =>
      .ok (create_success_reply_with_data xid
        (create_fsinfo_error_response (staleOrIoStatus e)))
    | .ok obj_attrs =>
      .ok (create_success_reply_with_data xid
        (create_fsinfo_ok (fsal_to_fattr3 obj_attrs)
          (1024 * 1024) (64 * 1024) 4096 (1024 * 1024) (64 * 1024) 4096 8192
          0xFFFFFFFFFFFFFFFF 0 1 (0x1 ||| 0x2 ||| 0x8 ||| 0x10)))

/-- `nfs/pathconf.rs` `create_pathconf_ok`. -/
def create_pathconf_ok (obj_attributes : Fattr3) (linkmax name_max : Nat)
    (no_trunc chown_restricted case_insensitive case_preserving : Bool) :
    Bytes :=
  packI32 NFS3_OK ++ packBool true ++ packFattr3 obj_attributes ++
  packU32 linkmax ++ packU32 name_max ++ packBool no_trunc ++
  packBool chown_restricted ++ packBool case_insensitive ++
  packBool case_preserving

/-- `nfs/pathconf.rs` `handle_pathconf`: any getattr failure maps to
NFS3ERR_STALE. -/
def handle_pathconf (xid : Nat) (args_data : Bytes) (fs : Filesystem) :
    Except String Bytes :=
  match unpack_fhandle3 args_data with
  | .error e => .error e
  | .ok object =>
    match fs.getattr object with
    | .error _ =>
      .ok (create_success_reply_with_data xid
        (packI32 NFS3ERR_STALE ++ packBool false))
    | .ok attr =>
      .ok (create_success_reply_with_data xid
        (create_pathconf_ok (fsal_to_fattr3 attr) 255 255 true true false true))

/-- `nfs/commit.rs` `map_error_to_status` (on the lower-cased message). -/
def commitErrStatus (e : String) : Int :=
  let m := e.toLower
  if strContains m "not found" || strContains m "no such file" then NFS3ERR_NOENT
  else if strContains m "permission denied" || strContains m "access denied"
    then NFS3ERR_ACCES
  else if strContains m "is a directory" then NFS3ERR_ISDIR
  else if strContains m "read-only" then NFS3ERR_ROFS
  else NFS3ERR_IO

/-- `nfs/commit.rs` `create_commit_response`: status, wcc_data (pre FALSE,
post from the attributes), and on success the 8-byte verifier (an error if
the verifier is missing on a success status, as in the source). -/
def create_commit_response (xid : Nat) (st : Int) (file_attr : Option Fattr3)
    (writeverf : Option Bytes) : Except String Bytes :=
  let base := packI32 st ++ packBool false ++ encodePostOpAttr file_attr
  if st = NFS3_OK then
    match writeverf with
    | some verf => .ok (create_success_reply_with_data xid (base ++ verf))
    | none => .error "Success status but no write verifier provided"
  else .ok (create_success_reply_with_data xid base)

/-- `nfs/commit.rs` `handle_commit`. -/
def handle_commit (xid : Nat) (args_data : Bytes) (fs : Filesystem) :
    Except String Bytes :=
  match deserialize_commit3args args_data with
  | .error e => .error e
  | .ok args =>
    let file_before := (fs.getattr args.file).toOption
    match fs.commit args.file args.offset args.count with
    | .ok _ =>
      let file_after := (fs.getattr args.file).toOption.map
        (fun a => fsal_to_fattr3 a)
      create_commit_response xid NFS3_OK file_after (some writeVerfCOMMIT)
    | .error e =>
      create_commit_response xid (commitErrStatus e)
        (file_before.map (fun a => fsal_to_fattr3 a)) none

/-! ## NFS dispatcher (`nfs/dispatcher.rs`) -/

/-- `dispatcher.rs` `create_notsupp_response`: a SUCCESS RPC reply whose
payload is the single nfsstat3 NFS3ERR_NOTSUPP. -/
def create_notsupp_response (xid : Nat) : Except String Bytes :=
  .ok (create_success_reply_with_data xid (packI32 NFS3ERR_NOTSUPP))

/-- `nfs/dispatcher.rs` `dispatch`: reject versions other than 3 with an
error (which the connection loop turns into a PROG_UNAVAIL reply), then
route by procedure number; unknown procedures get the NOTSUPP response. -/
def dispatch (call : RpcCallMsg) (args_data : Bytes) (fs : Filesystem) :
    Except String Bytes :=
  if call.vers ≠ 3 then .error "NFS version not supported"
  else
    match call.proc_ with
    | 0 => handle_null call.xid
    | 1 => handle_getattr call.xid args_data fs
    | 2 => handle_setattr call.xid args_data fs
    | 3 => handle_lookup call.xid args_data fs
    | 4 => handle_access call.xid args_data fs
    | 5 => handle_readlink call.xid args_data fs
    | 6 => handle_read call.xid args_data fs
    | 7 => handle_write call.xid args_data fs
    | 8 => handle_create call.xid args_data fs
    | 9 => handle_mkdir call.xid args_data fs
    | 10 => handle_symlink call.xid args_data fs
    | 11 => handle_mknod call.xid args_data fs
    | 12 => handle_remove call.xid args_data fs
    | 13 => handle_rmdir call.xid args_data fs
    | 14 => handle_rename call.xid args_data fs
    | 15 => handle_link call.xid args_data fs
    | 16 => handle_readdir call.xid args_data fs
    | 17 => handle_readdirplus call.xid args_data fs
    | 18 => handle_fsstat call.xid args_data fs
    | 19 => handle_fsinfo call.xid args_data fs
    | 20 => handle_pathconf call.xid args_data fs
    | 21 => handle_commit call.xid args_data fs
    | _ => create_notsupp_response call.xid

/-! ## MOUNT protocol (`mount/*.rs`)

`protocol/v3/mount.rs` (the `MountMessage` middleware) is absent from the
sources; its dirpath decoder and mountres3 encoder are modelled from the
spec, section 4.9 (MNT reply: mountstat3, then on OK the fhandle3 and the
auth flavor list [0, 1]). -/

/-- Modelled from the spec: `MountMessage::deserialize_dirpath` — an XDR
string. -/
def deserialize_dirpath (d : Bytes) : Except String Bytes :=
  ofOpt "failed to unpack dirpath" do
    let (p, _) ← rdString d 0
    pure p

/-- Modelled from the spec: `MountMessage::serialize_mountres3` of
`create_mount_ok fh` — MNT3_OK, the handle as a variable-length opaque, and
the auth flavors [AUTH_NONE, AUTH_SYS]. -/
def serialize_mountres3_ok (fh : Bytes) : Bytes :=
  packI32 0 ++ packOpaqueVar fh ++ packU32 2 ++ packU32 0 ++ packU32 1

/-- `mount/mnt.rs` `generate_file_handle`: a 32-byte handle holding the
64-bit `DefaultHasher` hash of the dirpath in bytes 0..8, the dirpath byte
length in bytes 8..12, and zeros elsewhere.  It never consults the handle
directory. -/
def generate_file_handle (h64 : Bytes → Nat) (path : Bytes) : Bytes :=
  be64 (h64 path) ++ be32 path.length ++ List.replicate 20 0

/-- `mount/mnt.rs` `handle`: decode the dirpath, build the hash-based
handle, and emit the RPC success header followed by the MNT result. -/
def mnt_handle (h64 : Bytes → Nat) (call : RpcCallMsg) (args_data : Bytes) :
    Except String Bytes :=
  match deserialize_dirpath args_data with
  | .error e => .error e
  | .ok dirpath =>
    .ok (null_reply call.xid ++
      serialize_mountres3_ok (generate_file_handle h64 dirpath))

/-- `mount/umnt.rs` `handle`: replies success whether or not the dirpath
decodes (UMNT is idempotent). -/
def umnt_handle (call : RpcCallMsg) (args_data : Bytes) :
    Except String Bytes :=
  match deserialize_dirpath args_data with
  | .error _ => .ok (null_reply call.xid)
  | .ok _ => .ok (null_reply call.xid)

/-- `mount/null.rs` `handle`. -/
def mount_null_handle (call : RpcCallMsg) : Except String Bytes :=
  .ok (null_reply call.xid)

/-- `mount/mod.rs` `handle_mount_call`: program and version checks, then
routing; DUMP, UMNTALL, EXPORT and unknown procedures return errors. -/
def handle_mount_call (h64 : Bytes → Nat) (call : RpcCallMsg)
    (args_data : Bytes) : Except String Bytes :=
  if call.prog ≠ 100005 then .error "Wrong program number"
  else if call.vers ≠ 3 then .error "Unsupported MOUNT version"
  else
    match call.proc_ with
    | 0 => mount_null_handle call
    | 1 => mnt_handle h64 call args_data
    | 3 => umnt_handle call args_data
    | 2 => .error "MOUNT DUMP procedure not implemented"
    | 4 => .error "MOUNT UMNTALL procedure not implemented"
    | 5 => .error "MOUNT EXPORT procedure not implemented"
    | _ => .error "Unknown MOUNT procedure"

/-! ## PORTMAP protocol (`portmap/*.rs`)

`mapping::unpack` is generated from the absent `xdr/v3/portmap.x`; it is
modelled from the spec (four 32-bit fields).  The registry
(`portmap/registry.rs`) is a `(prog, vers, prot) -> port` map; its interior
mutation is invisible in the reply bytes, which are all the claims observe,
so the handlers below compute the replies from the registry value. -/

/-- `protocol/v3/portmap.rs` `mapping`. -/
structure Mapping where
  prog : Nat
  vers : Nat
  prot : Nat
  port : Nat
deriving DecidableEq, Repr

/-- Modelled from the spec: `PortmapMessage::deserialize_mapping`. -/
def deserialize_mapping (d : Bytes) : Except String Mapping :=
  ofOpt "failed to unpack mapping" do
    let (prog, o1) ← rdU32 d 0
    let (vers, o2) ← rdU32 d o1
    let (prot, o3) ← rdU32 d o2
    let (port, _) ← rdU32 d o3
    pure ⟨prog, vers, prot, port⟩

/-- The registry contents: keys `(prog, vers, prot)` to ports. -/
abbrev Registry := List ((Nat × Nat × Nat) × Nat)

/-- `Registry::getport`: the registered port, or 0. -/
def Registry.getport (r : Registry) (m : Mapping) : Nat :=
  match r.find? (fun e => e.1 = (m.prog, m.vers, m.prot)) with
  | some e => e.2
  | none => 0

/-- `Registry::unset` result: whether the entry existed. -/
def Registry.unsetExisted (r : Registry) (m : Mapping) : Bool :=
  (r.find? (fun e => e.1 = (m.prog, m.vers, m.prot))).isSome

/-- `portmap/null.rs` `handle`. -/
def portmap_null_handle (call : RpcCallMsg) : Except String Bytes :=
  .ok (null_reply call.xid)

/-- `portmap/set.rs` `handle`: `Registry::set` always returns true; the
reply is the success header followed by the boolean. -/
def portmap_set_handle (call : RpcCallMsg) (args_data : Bytes)
    (_reg : Registry) : Except String Bytes :=
  match deserialize_mapping args_data with
  | .error e => .error e
  | .ok _ => .ok (null_reply call.xid ++ packU32 1)

/-- `portmap/unset.rs` `handle`. -/
def portmap_unset_handle (call : RpcCallMsg) (args_data : Bytes)
    (reg : Registry) : Except String Bytes :=
  match deserialize_mapping args_data with
  | .error e => .error e
  | .ok m =>
    .ok (null_reply call.xid ++
      packU32 (if reg.unsetExisted m then 1 else 0))

/-- `portmap/getport.rs` `handle`. -/
def portmap_getport_handle (call : RpcCallMsg) (args_data : Bytes)
    (reg : Registry) : Except String Bytes :=
  match deserialize_mapping args_data with
  | .error e => .error e
  | .ok m => .ok (null_reply call.xid ++ packU32 (reg.getport m))

/-- `portmap/mod.rs` `handle_portmap_call`. -/
def handle_portmap_call (call : RpcCallMsg) (args_data : Bytes)
    (reg : Registry) : Except String Bytes :=
  if call.prog ≠ 100000 then .error "Wrong program number"
  else if call.vers ≠ 2 then .error "Unsupported PORTMAP version"
  else
    match call.proc_ with
    | 0 => portmap_null_handle call
    | 1 => portmap_set_handle call args_data reg
    | 2 => portmap_unset_handle call args_data reg
    | 3 => portmap_getport_handle call args_data reg
    | 4 => .error "PORTMAP DUMP procedure not implemented"
    | 5 => .error "PORTMAP CALLIT procedure not supported"
    | _ => .error "Unknown PORTMAP procedure"

/-! ## The connection loop (`rpc/server.rs`) -/

/-- The auth-skipping part of `rpc/server.rs` `handle_rpc_message` (lines
165-203): starting after the 24-byte fixed header, consume the cred and verf
`opaque_auth` fields using their length fields (rounded up to a 4-byte
boundary) and return the remaining procedure-argument bytes. -/
def parseAuthArgs (data : Bytes) : Except String Bytes :=
  if data.length < 24 + 8 then
    .error "RPC message too short for credential header"
  else
    let cred_length := beValAt data 28
    let cred_padded := (cred_length + 3) / 4 * 4
    let off1 := 24 + 8 + cred_padded
    if data.length < off1 + 8 then
      .error "RPC message too short for verifier header"
    else
      let verf_length := beValAt data (off1 + 4)
      let verf_padded := (verf_length + 3) / 4 * 4
      let off2 := off1 + 8 + verf_padded
      .ok (if data.length > off2 then data.drop off2 else [])

/-- `rpc/server.rs` `handle_rpc_message`: parse the CALL header, skip the
cred and verf `opaque_auth` fields, and route by program number. -/
def handle_rpc_message (h64 : Bytes → Nat) (fs : Filesystem) (reg : Registry)
    (data : Bytes) : Except String Bytes :=
  match deserialize_call data with
  | .error e => .error e
  | .ok call =>
    match parseAuthArgs data with
    | .error e => .error e
    | .ok args_data =>
      match call.prog with
      | 100000 => handle_portmap_call call args_data reg
      | 100005 => handle_mount_call h64 call args_data
      | 100003 => dispatch call args_data fs
      | _ => .error "Unknown program number"

/-- The per-record decision of `handle_connection` (lines 86-133): a
complete record either yields exactly one reply (the handler reply, or a
PROG_UNAVAIL reply carrying the xid parsed from the first four bytes), or —
when the record is shorter than four bytes — is silently skipped
(`continue`). -/
def processCompleteRecord (h64 : Bytes → Nat) (fs : Filesystem)
    (reg : Registry) (buffer : Bytes) : Option Bytes :=
  match handle_rpc_message h64 fs reg buffer with
  | .ok response => some response
  | .error _ =>
    if 4 ≤ buffer.length then some (create_prog_unavail_reply (beValAt buffer 0))
    else none

/-- The last-fragment bit of a 4-byte record mark (line 71). -/
def recordMarkLast (b0 b1 b2 b3 : Nat) : Bool :=
  (b0 * 2 ^ 24 + b1 * 2 ^ 16 + b2 * 2 ^ 8 + b3) &&& 0x80000000 ≠ 0

/-- The 31-bit fragment length of a 4-byte record mark (line 72). -/
def recordMarkLen (b0 b1 b2 b3 : Nat) : Nat :=
  (b0 * 2 ^ 24 + b1 * 2 ^ 16 + b2 * 2 ^ 8 + b3) &&& 0x7FFFFFFF

/-- The record-marking read step of `handle_connection` (lines 59-82): read
the 4-byte header, split off the last-fragment bit and the 31-bit length,
then unconditionally read that many body bytes — there is no per-record
size cap.  `none` models the connection closing on a short read. -/
def readFragment (stream : Bytes) : Option (Bool × Bytes × Bytes) :=
  match stream with
  | b0 :: b1 :: b2 :: b3 :: rest =>
    if rest.length < recordMarkLen b0 b1 b2 b3 then none
    else some (recordMarkLast b0 b1 b2 b3,
               rest.take (recordMarkLen b0 b1 b2 b3),
               rest.drop (recordMarkLen b0 b1 b2 b3))
  | _ => none

/-- The record mark the server prepends when writing a reply (lines
115-126): length with the last-fragment bit set, then the payload, in one
write. -/
def emitRecord (response : Bytes) : Bytes :=
  be32 (response.length % 2 ^ 32 ||| 0x80000000) ++ response

/-! ## Handle directory (`fsal/handle.rs`)

`HandleManager` keeps two `HashMap`s and a `u64` counter; the maps are
modelled as association lists with insert-replaces-existing semantics.
`hashP` stands for the 64-bit `DefaultHasher` path hash. -/

/-- Find a key in an association list. -/
def alFind (k : Bytes) : List (Bytes × Bytes) → Option Bytes
  | [] => none
  | (k', v) :: rest => if k' = k then some v else alFind k rest

/-- Remove a key from an association list. -/
def alErase (k : Bytes) (l : List (Bytes × Bytes)) : List (Bytes × Bytes) :=
  l.filter (fun p => decide (p.1 ≠ k))

/-- Insert (or overwrite) a key in an association list. -/
def alInsert (k v : Bytes) (l : List (Bytes × Bytes)) : List (Bytes × Bytes) :=
  (k, v) :: alErase k l

/-- The `HandleManager` state: both maps and the id counter (which starts
at 1). -/
structure HMState where
  handle_to_path : List (Bytes × Bytes)
  path_to_handle : List (Bytes × Bytes)
  next_id : Nat
deriving DecidableEq, Repr

/-- The fresh manager built by `HandleManager::new`. -/
def HMState.initial : HMState := ⟨[], [], 1⟩

/-- `HandleManager::create_handle`: return the existing handle for the path
if there is one; otherwise take the next id, build a 32-byte handle (the id
big-endian in bytes 0..8, the 64-bit path hash in bytes 8..16, zeros
elsewhere) and install both directions.  `next_id` is a `u64`, so the
increment wraps at `2 ^ 64`. -/
def create_handle (hashP : Bytes → Nat) (s : HMState) (path : Bytes) :
    Bytes × HMState :=
  match alFind path s.path_to_handle with
  | some handle => (handle, s)
  | none =>
    let id := s.next_id
    let handle := be64 id ++ be64 (hashP path) ++ List.replicate 16 0
    (handle,
     { handle_to_path := alInsert handle path s.handle_to_path
       path_to_handle := alInsert path handle s.path_to_handle
       next_id := (s.next_id + 1) % 2 ^ 64 })

/-- `HandleManager::lookup_path`. -/
def HMState.lookup_path (s : HMState) (handle : Bytes) : Option Bytes :=
  alFind handle s.handle_to_path

/-- `HandleManager::remove_handle`: delete both directions when the handle
is present. -/
def remove_handle (s : HMState) (handle : Bytes) : Option Bytes × HMState :=
  match alFind handle s.handle_to_path with
  | some path =>
    (some path,
     { s with handle_to_path := alErase handle s.handle_to_path
              path_to_handle := alErase path s.path_to_handle })
  | none => (none, s)

/-! ## `LocalFilesystem` (`fsal/local/mod.rs`)

Only the parts the claims need.  The OS file store is a list of existing
paths; `validate_path` canonicalizes through OS calls and is abstracted as a
predicate parameter; `PathBuf::join` appends a separator byte. -/

/-- Rust `str::contains` for byte-string names (substring check). -/
def bytesContain (hay needle : Bytes) : Bool :=
  hay.tails.any (fun t => needle.isPrefixOf t)

/-- The `LocalFilesystem` fields: export root, handle manager, root
handle. -/
structure LfsState where
  root_path : Bytes
  hm : HMState
  root_handle : Bytes
deriving DecidableEq, Repr

/-- `LocalFilesystem::new`: allocate the root handle in a fresh handle
manager (the very first handle, id 1). -/
def LocalFilesystem.new (hashP : Bytes → Nat) (root_path : Bytes) :
    LfsState :=
  let (rh, hm) := create_handle hashP HMState.initial root_path
  ⟨root_path, hm, rh⟩

/-- `LocalFilesystem::remove`: resolve the directory handle, reject names
containing '/' or "..", validate the joined path, and delete the file from
the backing store.  The handle manager is left untouched — the source never
calls `remove_handle` here. -/
def LocalFilesystem.remove (validate : Bytes → Bool) (os : List Bytes)
    (st : LfsState) (dir_handle name : Bytes) :
    Except String (List Bytes × LfsState) :=
  match st.hm.lookup_path dir_handle with
  | none => .error "Invalid file handle"
  | some dir_path =>
    if name.contains 47 || bytesContain name [46, 46] then
      .error "Invalid filename"
    else
      let full_path := dir_path ++ [47] ++ name
      if !validate full_path then .error "Path is outside export root"
      else if os.contains full_path then
        .ok (os.filter (fun p => decide (p ≠ full_path)), st)
      else .error "Failed to remove file: No such file or directory"

/-! ## Handle-directory operation sequences (for the map invariants) -/

/-- One handle-directory operation. -/
inductive HMOp where
  | create (path : Bytes)
  | remove (handle : Bytes)
deriving DecidableEq, Repr

/-- Apply one operation to the manager state. -/
def applyOp (hashP : Bytes → Nat) (s : HMState) : HMOp → HMState
  | .create p => (create_handle hashP s p).2
  | .remove h => (remove_handle s h).2

/-- Run a sequence of operations from the fresh manager. -/
def runOps (hashP : Bytes → Nat) (ops : List HMOp) : HMState :=
  ops.foldl (applyOp hashP) HMState.initial

/-- The two maps are mutual inverses. -/
def MutualInv (s : HMState) : Prop :=
  ∀ h p, alFind h s.handle_to_path = some p ↔ alFind p s.path_to_handle = some h

/-- Every stored handle (key of `handle_to_path`, value of
`path_to_handle`) is exactly 32 bytes. -/
def Handles32 (s : HMState) : Prop :=
  (∀ e ∈ s.handle_to_path, e.1.length = 32) ∧
  (∀ e ∈ s.path_to_handle, e.2.length = 32)

/-- Every stored handle starts with an id below the counter (the induction
companion of the map invariants). -/
def IdsFresh (s : HMState) : Prop :=
  ∀ e ∈ s.handle_to_path,
    ∃ id tail, id < s.next_id ∧ e.1 = be64 id ++ tail

/-! ## Concrete fixtures

Test doubles used by the concrete evaluations below: a trivially succeeding
filesystem, a zero hash, an empty registry, and an AUTH_NONE CALL record
builder (spec section 4.3, scenario 1). -/

/-- A trivial backend whose operations all succeed (the claims evaluated on
it do not depend on backend behaviour). -/
def fsNop : Filesystem where
  root_handle := List.replicate 32 0
  lookup := fun _ _ => .ok (List.replicate 32 1)
  getattr := fun _ =>
    .ok ⟨.regularFile, 0o644, 1, 0, 0, 5, 512, (0, 0), 1, 99,
         ⟨1, 2⟩, ⟨3, 4⟩, ⟨5, 6⟩⟩
  read := fun _ _ _ => .ok [72, 105, 10]
  readdir := fun _ _ _ => .ok ([], true)
  write := fun _ _ d => .ok d.length
  setattr_size := fun _ _ => .ok ()
  setattr_mode := fun _ _ => .ok ()
  setattr_owner := fun _ _ _ => .ok ()
  create := fun _ _ _ => .ok (List.replicate 32 1)
  remove := fun _ _ => .ok ()
  mkdir := fun _ _ _ => .ok (List.replicate 32 1)
  rmdir := fun _ _ => .ok ()
  rename := fun _ _ _ _ => .ok ()
  symlink := fun _ _ _ => .ok (List.replicate 32 1)
  readlink := fun _ => .ok [47]
  link := fun _ _ _ => .ok (List.replicate 32 1)
  commit := fun _ _ _ => .ok ()
  mknod := fun _ _ _ _ _ => .ok (List.replicate 32 1)

/-- A concrete stand-in for the `DefaultHasher` 64-bit hash. -/
def h640 : Bytes → Nat := fun _ => 0

/-- An empty portmap registry. -/
def reg0 : Registry := []

/-- A complete CALL record with AUTH_NONE cred and verf. -/
def mkCallRecord (xid prog vers proc : Nat) (args : Bytes) : Bytes :=
  packU32 xid ++ packU32 0 ++ packU32 2 ++ packU32 prog ++ packU32 vers ++
  packU32 proc ++ packU32 0 ++ packU32 0 ++ packU32 0 ++ packU32 0 ++ args

/-- The nfsstat3 field of a reply: the four payload bytes after the 24-byte
RPC header. -/
def payloadStatus (r : Bytes) : Bytes := (r.drop 24).take 4

/-- The last `n` bytes of a reply. -/
def lastN (n : Nat) (r : Bytes) : Bytes := r.drop (r.length - n)

/-- WRITE3args for a 5-byte write of "world" at offset 0, UNSTABLE. -/
def wargsW : Bytes :=
  packOpaqueVar [1] ++ packU64 0 ++ packU32 5 ++ packU32 0 ++
  packOpaqueVar [119, 111, 114, 108, 100]

/-- COMMIT3args for offset 0, count 0. -/
def cargsW : Bytes := packOpaqueVar [1] ++ packU64 0 ++ packU32 0

/-- The WRITE reply of `fsNop` for `wargsW`. -/
def replyW : Bytes :=
  match handle_write 7 wargsW fsNop with
  | .ok r => r
  | .error _ => []

/-- The COMMIT reply of `fsNop` for `cargsW`. -/
def replyC : Bytes :=
  match handle_commit 9 cargsW fsNop with
  | .ok r => r
  | .error _ => []

/-- A `LocalFilesystem` over export root "/e" with one extra handle for
"/e/f" (the setting for the REMOVE/handle-revocation evaluation). -/
def lfsE : LfsState :=
  let base := LocalFilesystem.new h640 [47, 101]
  { base with hm := (create_handle h640 base.hm [47, 101, 47, 102]).2 }

/-- The handle `lfsE` holds for "/e/f". -/
def fhF : Bytes := (create_handle h640 (LocalFilesystem.new h640 [47, 101]).hm
  [47, 101, 47, 102]).1

/-- Decidable equality for fallible results (used to evaluate the model on
concrete inputs). -/
instance {ε α : Type} [DecidableEq ε] [DecidableEq α] :
    DecidableEq (Except ε α)
  | .error e, .error f =>
    if h : e = f then .isTrue (by rw [h]) else .isFalse (by simp [h])
  | .error _, .ok _ => .isFalse (by simp)
  | .ok _, .error _ => .isFalse (by simp)
  | .ok a, .ok b =>
    if h : a = b then .isTrue (by rw [h]) else .isFalse (by simp [h])

/-- A small handle-directory workload: two creations and a removal of the
first handle allocated. -/
def ops0 : List HMOp :=
  [HMOp.create [47], HMOp.create [47, 120],
   HMOp.remove (be64 1 ++ be64 0 ++ List.replicate 16 0)]

/-- The error of a fallible computation, when there is one. -/
def errOf : Except String α → Option String
  | .error e => some e
  | .ok _ => none

/-- The argument-decode error of the NFS procedure `proc` on `args` — each
supported procedure's handler starts by running exactly this decoder. -/
def nfsArgsDecodeErr (proc : Nat) (args : Bytes) : Option String :=
  match proc with
  | 1 => errOf (deserialize_getattr3args args)
  | 2 => errOf (deserialize_setattr3args args)
  | 3 => errOf (deserialize_lookup3args args)
  | 4 => errOf (deserialize_access3args args)
  | 5 => errOf (deserialize_readlink3args args)
  | 6 => errOf (deserialize_read3args args)
  | 7 => errOf (deserialize_write3args args)
  | 8 => errOf (deserialize_create3args args)
  | 9 => errOf (deserialize_mkdir3args args)
  | 10 => errOf (deserialize_symlink3args args)
  | 11 => errOf (deserialize_mknod3args args)
  | 12 => errOf (deserialize_remove3args args)
  | 13 => errOf (deserialize_rmdir3args args)
  | 14 => errOf (deserialize_rename3args args)
  | 15 => errOf (deserialize_link3args args)
  | 16 => errOf (deserialize_readdir3args args)
  | 17 => errOf (deserialize_readdirplus3args args)
  | 18 => errOf (deserialize_fsstat3args args)
  | 19 => errOf (deserialize_fsinfo3args args)
  | 20 => errOf (unpack_fhandle3 args)
  | 21 => errOf (deserialize_commit3args args)
  | _ => none

/-! # Lemmas

Every reply a handler returns is built by `create_success_reply_with_data`,
`null_reply` (possibly with result bytes appended), or the PROG_UNAVAIL
constructor, all of which start with the 4-byte xid. -/

theorem take4_success (xid : Nat) (p : Bytes) :
    (create_success_reply_with_data xid p).take 4 = packU32 xid := rfl

theorem take4_null_append (xid : Nat) (s : Bytes) :
    (null_reply xid ++ s).take 4 = packU32 xid := rfl

theorem take4_prog_unavail (xid : Nat) :
    (create_prog_unavail_reply xid).take 4 = packU32 xid := rfl

theorem handle_null_xid {xid : Nat} {r : Bytes}
    (h : handle_null xid = .ok r) : r.take 4 = packU32 xid := by
  unfold handle_null at h; cases h; rfl

theorem handle_getattr_xid {xid : Nat} {args : Bytes} {fs : Filesystem}
    {r : Bytes} (h : handle_getattr xid args fs = .ok r) :
    r.take 4 = packU32 xid := by
  unfold handle_getattr at h
  try simp only [] at h
  repeat' split at h
  all_goals first
    | (cases h; rfl)
    | exact absurd h (by simp)

theorem handle_setattr_xid {xid : Nat} {args : Bytes} {fs : Filesystem}
    {r : Bytes} (h : handle_setattr xid args fs = .ok r) :
    r.take 4 = packU32 xid := by
  unfold handle_setattr at h
  try simp only [] at h
  repeat' split at h
  all_goals first
    | (cases h; rfl)
    | exact absurd h (by simp)

theorem handle_lookup_xid {xid : Nat} {args : Bytes} {fs : Filesystem}
    {r : Bytes} (h : handle_lookup xid args fs = .ok r) :
    r.take 4 = packU32 xid := by
  unfold handle_lookup at h
  try simp only [] at h
  repeat' split at h
  all_goals first
    | (cases h; rfl)
    | exact absurd h (by simp)

theorem handle_access_xid {xid : Nat} {args : Bytes} {fs : Filesystem}
    {r : Bytes} (h : handle_access xid args fs = .ok r) :
    r.take 4 = packU32 xid := by
  unfold handle_access at h
  try simp only [] at h
  repeat' split at h
  all_goals first
    | (cases h; rfl)
    | exact absurd h (by simp)

theorem create_readlink_response_xid {xid : Nat} {st : Int}
    {attr : Option Fattr3} {target : Option Bytes} {r : Bytes}
    (h : create_readlink_response xid st attr target = .ok r) :
    r.take 4 = packU32 xid := by
  unfold create_readlink_response at h
  try simp only [] at h
  repeat' split at h
  all_goals first
    | (cases h; rfl)
    | exact absurd h (by simp)

theorem handle_readlink_xid {xid : Nat} {args : Bytes} {fs : Filesystem}
    {r : Bytes} (h : handle_readlink xid args fs = .ok r) :
    r.take 4 = packU32 xid := by
  unfold handle_readlink at h
  try simp only [] at h
  split at h
  · exact absurd h (by simp)
  · split at h <;> exact create_readlink_response_xid h

theorem handle_read_xid {xid : Nat} {args : Bytes} {fs : Filesystem}
    {r : Bytes} (h : handle_read xid args fs = .ok r) :
    r.take 4 = packU32 xid := by
  unfold handle_read at h
  try simp only [] at h
  repeat' split at h
  all_goals first
    | (cases h; rfl)
    | exact absurd h (by simp)

theorem handle_write_xid {xid : Nat} {args : Bytes} {fs : Filesystem}
    {r : Bytes} (h : handle_write xid args fs = .ok r) :
    r.take 4 = packU32 xid := by
  unfold handle_write at h
  try simp only [] at h
  repeat' split at h
  all_goals first
    | (cases h; rfl)
    | exact absurd h (by simp)

theorem handle_create_xid {xid : Nat} {args : Bytes} {fs : Filesystem}
    {r : Bytes} (h : handle_create xid args fs = .ok r) :
    r.take 4 = packU32 xid := by
  unfold handle_create at h
  try simp only [] at h
  repeat' split at h
  all_goals first
    | (cases h; rfl)
    | exact absurd h (by simp)

theorem handle_mkdir_xid {xid : Nat} {args : Bytes} {fs : Filesystem}
    {r : Bytes} (h : handle_mkdir xid args fs = .ok r) :
    r.take 4 = packU32 xid := by
  unfold handle_mkdir at h
  try simp only [] at h
  repeat' split at h
  all_goals first
    | (cases h; rfl)
    | exact absurd h (by simp)

theorem handle_symlink_xid {xid : Nat} {args : Bytes} {fs : Filesystem}
    {r : Bytes} (h : handle_symlink xid args fs = .ok r) :
    r.take 4 = packU32 xid := by
  unfold handle_symlink at h
  try simp only [] at h
  repeat' split at h
  all_goals first
    | (cases h; rfl)
    | exact absurd h (by simp)

theorem handle_mknod_xid {xid : Nat} {args : Bytes} {fs : Filesystem}
    {r : Bytes} (h : handle_mknod xid args fs = .ok r) :
    r.take 4 = packU32 xid := by
  unfold handle_mknod at h
  try simp only [] at h
  repeat' split at h
  all_goals first
    | (cases h; rfl)
    | exact absurd h (by simp)

theorem handle_remove_xid {xid : Nat} {args : Bytes} {fs : Filesystem}
    {r : Bytes} (h : handle_remove xid args fs = .ok r) :
    r.take 4 = packU32 xid := by
  unfold handle_remove at h
  try simp only [] at h
  repeat' split at h
  all_goals first
    | (cases h; rfl)
    | exact absurd h (by simp)

theorem handle_rmdir_xid {xid : Nat} {args : Bytes} {fs : Filesystem}
    {r : Bytes} (h : handle_rmdir xid args fs = .ok r) :
    r.take 4 = packU32 xid := by
  unfold handle_rmdir at h
  try simp only [] at h
  repeat' split at h
  all_goals first
    | (cases h; rfl)
    | exact absurd h (by simp)

theorem handle_rename_xid {xid : Nat} {args : Bytes} {fs : Filesystem}
    {r : Bytes} (h : handle_rename xid args fs = .ok r) :
    r.take 4 = packU32 xid := by
  unfold handle_rename at h
  try simp only [] at h
  repeat' split at h
  all_goals first
    | (cases h; rfl)
    | exact absurd h (by simp)

theorem handle_link_xid {xid : Nat} {args : Bytes} {fs : Filesystem}
    {r : Bytes} (h : handle_link xid args fs = .ok r) :
    r.take 4 = packU32 xid := by
  unfold handle_link at h
  try simp only [] at h
  repeat' split at h
  all_goals first
    | (cases h; rfl)
    | exact absurd h (by simp)

theorem handle_readdir_xid {xid : Nat} {args : Bytes} {fs : Filesystem}
    {r : Bytes} (h : handle_readdir xid args fs = .ok r) :
    r.take 4 = packU32 xid := by
  unfold handle_readdir at h
  try simp only [] at h
  repeat' split at h
  all_goals first
    | (cases h; rfl)
    | exact absurd h (by simp)

theorem handle_readdirplus_xid {xid : Nat} {args : Bytes} {fs : Filesystem}
    {r : Bytes} (h : handle_readdirplus xid args fs = .ok r) :
    r.take 4 = packU32 xid := by
  unfold handle_readdirplus at h
  try simp only [] at h
  repeat' split at h
  all_goals first
    | (cases h; rfl)
    | exact absurd h (by simp)

theorem handle_fsstat_xid {xid : Nat} {args : Bytes} {fs : Filesystem}
    {r : Bytes} (h : handle_fsstat xid args fs = .ok r) :
    r.take 4 = packU32 xid := by
  unfold handle_fsstat at h
  try simp only [] at h
  repeat' split at h
  all_goals first
    | (cases h; rfl)
    | exact absurd h (by simp)

theorem handle_fsinfo_xid {xid : Nat} {args : Bytes} {fs : Filesystem}
    {r : Bytes} (h : handle_fsinfo xid args fs = .ok r) :
    r.take 4 = packU32 xid := by
  unfold handle_fsinfo at h
  try simp only [] at h
  repeat' split at h
  all_goals first
    | (cases h; rfl)
    | exact absurd h (by simp)

theorem handle_pathconf_xid {xid : Nat} {args : Bytes} {fs : Filesystem}
    {r : Bytes} (h : handle_pathconf xid args fs = .ok r) :
    r.take 4 = packU32 xid := by
  unfold handle_pathconf at h
  try simp only [] at h
  repeat' split at h
  all_goals first
    | (cases h; rfl)
    | exact absurd h (by simp)

theorem create_commit_response_xid {xid : Nat} {st : Int}
    {attr : Option Fattr3} {verf : Option Bytes} {r : Bytes}
    (h : create_commit_response xid st attr verf = .ok r) :
    r.take 4 = packU32 xid := by
  unfold create_commit_response at h
  try simp only [] at h
  repeat' split at h
  all_goals first
    | (cases h; rfl)
    | exact absurd h (by simp)

theorem handle_commit_xid {xid : Nat} {args : Bytes} {fs : Filesystem}
    {r : Bytes} (h : handle_commit xid args fs = .ok r) :
    r.take 4 = packU32 xid := by
  unfold handle_commit at h
  try simp only [] at h
  split at h
  · exact absurd h (by simp)
  · split at h <;> exact create_commit_response_xid h

theorem create_notsupp_response_xid {xid : Nat} {r : Bytes}
    (h : create_notsupp_response xid = .ok r) : r.take 4 = packU32 xid := by
  unfold create_notsupp_response at h; cases h; rfl

/-- Every NFS reply the dispatcher returns starts with the call's xid. -/
theorem dispatch_xid {call : RpcCallMsg} {args : Bytes} {fs : Filesystem}
    {r : Bytes} (h : dispatch call args fs = .ok r) :
    r.take 4 = packU32 call.xid := by
  unfold dispatch at h
  split at h
  · exact absurd h (by simp)
  · split at h
    all_goals first
      | exact handle_null_xid h
      | exact handle_getattr_xid h
      | exact handle_setattr_xid h
      | exact handle_lookup_xid h
      | exact handle_access_xid h
      | exact handle_readlink_xid h
      | exact handle_read_xid h
      | exact handle_write_xid h
      | exact handle_create_xid h
      | exact handle_mkdir_xid h
      | exact handle_symlink_xid h
      | exact handle_mknod_xid h
      | exact handle_remove_xid h
      | exact handle_rmdir_xid h
      | exact handle_rename_xid h
      | exact handle_link_xid h
      | exact handle_readdir_xid h
      | exact handle_readdirplus_xid h
      | exact handle_fsstat_xid h
      | exact handle_fsinfo_xid h
      | exact handle_pathconf_xid h
      | exact handle_commit_xid h
      | exact create_notsupp_response_xid h

/-- Every MOUNT reply starts with the call's xid. -/
theorem handle_mount_call_xid {h64 : Bytes → Nat} {call : RpcCallMsg}
    {args : Bytes} {r : Bytes} (h : handle_mount_call h64 call args = .ok r) :
    r.take 4 = packU32 call.xid := by
  unfold handle_mount_call mount_null_handle mnt_handle umnt_handle at h
  repeat' split at h
  all_goals first
    | (cases h; rfl)
    | exact absurd h (by simp)

/-- Every PORTMAP reply starts with the call's xid. -/
theorem handle_portmap_call_xid {call : RpcCallMsg} {args : Bytes}
    {reg : Registry} {r : Bytes}
    (h : handle_portmap_call call args reg = .ok r) :
    r.take 4 = packU32 call.xid := by
  unfold handle_portmap_call portmap_null_handle portmap_set_handle
    portmap_unset_handle portmap_getport_handle at h
  repeat' split at h
  all_goals first
    | (cases h; rfl)
    | exact absurd h (by simp)

/-- From a successful CALL parse: the xid is the first word and the buffer
has at least the 24 header bytes. -/
theorem deserialize_call_inv {data : Bytes} {call : RpcCallMsg}
    (h : deserialize_call data = .ok call) :
    call.xid = beValAt data 0 ∧ 24 ≤ data.length := by
  unfold deserialize_call at h
  repeat' split at h
  all_goals first
    | (cases h; exact ⟨rfl, by omega⟩)
    | exact absurd h (by simp)

/-- Every reply `handle_rpc_message` produces starts with the buffer's
first four bytes (the xid). -/
theorem handle_rpc_message_xid {h64 : Bytes → Nat} {fs : Filesystem}
    {reg : Registry} {data : Bytes} {r : Bytes}
    (h : handle_rpc_message h64 fs reg data = .ok r) :
    r.take 4 = packU32 (beValAt data 0) := by
  unfold handle_rpc_message at h
  split at h
  · exact absurd h (by simp)
  · rename_i call hcall
    have hx := (deserialize_call_inv hcall).1
    split at h
    · exact absurd h (by simp)
    · split at h
      · exact hx ▸ handle_portmap_call_xid h
      · exact hx ▸ handle_mount_call_xid h
      · exact hx ▸ dispatch_xid h
      · exact absurd h (by simp)

theorem errOf_eq_some {x : Except String α} {e : String}
    (h : errOf x = some e) : x = .error e := by
  cases x
  · simpa [errOf] using h
  · simp [errOf] at h

/-- A decode failure short-circuits the handler of every supported NFS
procedure with the decoder's error, for every filesystem. -/
theorem dispatch_decode_error {call : RpcCallMsg} {args : Bytes}
    (fs : Filesystem) {e : String}
    (hv : call.vers = 3) (hd : nfsArgsDecodeErr call.proc_ args = some e) :
    dispatch call args fs = .error e := by
  unfold dispatch
  rw [hv]
  simp only [ne_eq, not_true_eq_false, if_false]
  unfold nfsArgsDecodeErr at hd
  split at hd
  all_goals first
    | exact absurd hd (by simp)
    | (rename_i hp
       rw [hp]
       simp [handle_getattr, handle_setattr, handle_lookup, handle_access,
             handle_readlink, handle_read, handle_write, handle_create,
             handle_mkdir, handle_symlink, handle_mknod, handle_remove,
             handle_rmdir, handle_rename, handle_link, handle_readdir,
             handle_readdirplus, handle_fsstat, handle_fsinfo,
             handle_pathconf, handle_commit, errOf_eq_some hd])

/-- When the message handler fails on a record of at least 4 bytes, the
server sends a PROG_UNAVAIL reply with the record's leading word as xid. -/
theorem processRecord_of_error {h64 : Bytes → Nat} {fs : Filesystem}
    {reg : Registry} {buffer : Bytes} {e : String}
    (hlen : 4 ≤ buffer.length)
    (h : handle_rpc_message h64 fs reg buffer = .error e) :
    processCompleteRecord h64 fs reg buffer =
      some (create_prog_unavail_reply (beValAt buffer 0)) := by
  unfold processCompleteRecord
  rw [h]
  simp [hlen]

theorem dispatch_version_mismatch {call : RpcCallMsg} {args : Bytes}
    (fs : Filesystem) (hv : call.vers ≠ 3) :
    dispatch call args fs = .error "NFS version not supported" := by
  unfold dispatch
  rw [if_pos hv]

theorem dispatch_unknown_proc {call : RpcCallMsg} {args : Bytes}
    (fs : Filesystem) (hv : call.vers = 3) (hp : 22 ≤ call.proc_) :
    dispatch call args fs =
      .ok (create_success_reply_with_data call.xid (packI32 NFS3ERR_NOTSUPP)) := by
  unfold dispatch
  rw [if_neg (by simp [hv])]
  split
  all_goals first | omega | rfl

theorem mount_version_mismatch {h64 : Bytes → Nat} {call : RpcCallMsg}
    {args : Bytes} (hp : call.prog = 100005) (hv : call.vers ≠ 3) :
    handle_mount_call h64 call args = .error "Unsupported MOUNT version" := by
  unfold handle_mount_call
  rw [if_neg (by simp [hp]), if_pos hv]

theorem mount_unknown_proc {h64 : Bytes → Nat} {call : RpcCallMsg}
    {args : Bytes} (hp : call.prog = 100005) (hv : call.vers = 3)
    (hproc : call.proc_ = 2 ∨ call.proc_ = 4 ∨ call.proc_ = 5 ∨ 6 ≤ call.proc_) :
    ∃ e, handle_mount_call h64 call args = .error e := by
  unfold handle_mount_call
  rw [if_neg (by simp [hp]), if_neg (by simp [hv])]
  rcases hproc with h | h | h | h <;>
    (split
     all_goals first | omega | exact ⟨_, rfl⟩)

theorem portmap_version_mismatch {call : RpcCallMsg} {args : Bytes}
    {reg : Registry} (hp : call.prog = 100000) (hv : call.vers ≠ 2) :
    handle_portmap_call call args reg = .error "Unsupported PORTMAP version" := by
  unfold handle_portmap_call
  rw [if_neg (by simp [hp]), if_pos hv]

theorem portmap_unknown_proc {call : RpcCallMsg} {args : Bytes}
    {reg : Registry} (hp : call.prog = 100000) (hv : call.vers = 2)
    (hproc : call.proc_ = 4 ∨ call.proc_ = 5 ∨ 6 ≤ call.proc_) :
    ∃ e, handle_portmap_call call args reg = .error e := by
  unfold handle_portmap_call
  rw [if_neg (by simp [hp]), if_neg (by simp [hv])]
  rcases hproc with h | h | h <;>
    (split
     all_goals first | omega | exact ⟨_, rfl⟩)

/-! # Claims -/

/-- C3 (corrected).  What the server actually replies on version and
procedure mismatches: (1) a CALL to a registered program with the wrong
version is answered by a PROG_UNAVAIL accept_stat reply (not PROG_MISMATCH
with a low/high range); (2) a version-3 NFS CALL with an unknown procedure
number is answered by a SUCCESS accept_stat reply whose payload is the
single nfsstat3 NFS3ERR_NOTSUPP (not a PROC_UNAVAIL accept_stat); (3) a
MOUNT CALL with an unknown or unimplemented procedure (DUMP, UMNTALL,
EXPORT, or any number ≥ 6) and a PORTMAP CALL with DUMP, CALLIT or any
number ≥ 6 are answered by PROG_UNAVAIL. -/
theorem version_proc_mismatch_actual_replies :
    (∀ (h64 : Bytes → Nat) (fs : Filesystem) (reg : Registry)
       (buffer : Bytes) (call : RpcCallMsg),
      deserialize_call buffer = .ok call →
      ((call.prog = 100003 ∧ call.vers ≠ 3) ∨
       (call.prog = 100005 ∧ call.vers ≠ 3) ∨
       (call.prog = 100000 ∧ call.vers ≠ 2)) →
      processCompleteRecord h64 fs reg buffer =
        some (create_prog_unavail_reply call.xid)) ∧
    (∀ (h64 : Bytes → Nat) (fs : Filesystem) (reg : Registry)
       (buffer args : Bytes) (call : RpcCallMsg),
      deserialize_call buffer = .ok call → parseAuthArgs buffer = .ok args →
      call.prog = 100003 → call.vers = 3 → 22 ≤ call.proc_ →
      processCompleteRecord h64 fs reg buffer =
        some (create_success_reply_with_data call.xid
          (packI32 NFS3ERR_NOTSUPP))) ∧
    (∀ (h64 : Bytes → Nat) (fs : Filesystem) (reg : Registry)
       (buffer : Bytes) (call : RpcCallMsg),
      deserialize_call buffer = .ok call →
      ((call.prog = 100005 ∧ call.vers = 3 ∧
         (call.proc_ = 2 ∨ call.proc_ = 4 ∨ call.proc_ = 5 ∨
          6 ≤ call.proc_)) ∨
       (call.prog = 100000 ∧ call.vers = 2 ∧
         (call.proc_ = 4 ∨ call.proc_ = 5 ∨ 6 ≤ call.proc_))) →
      processCompleteRecord h64 fs reg buffer =
        some (create_prog_unavail_reply call.xid)) := by
  refine ⟨?_, ?_, ?_⟩
  · intro h64 fs reg buffer call hc hm
    obtain ⟨hx, hlen⟩ := deserialize_call_inv hc
    have herr : ∃ e, handle_rpc_message h64 fs reg buffer = .error e := by
      unfold handle_rpc_message
      simp only [hc]
      cases hpa : parseAuthArgs buffer with
      | error e => exact ⟨e, rfl⟩
      | ok args =>
        rcases hm with ⟨hp, hv⟩ | ⟨hp, hv⟩ | ⟨hp, hv⟩ <;> rw [hp]
        · exact ⟨_, dispatch_version_mismatch fs hv⟩
        · exact ⟨_, mount_version_mismatch hp hv⟩
        · exact ⟨_, portmap_version_mismatch hp hv⟩
    obtain ⟨e, he⟩ := herr
    rw [hx]
    exact processRecord_of_error (by omega) he
  · intro h64 fs reg buffer args call hc hpa hp hv hproc
    have hd := @dispatch_unknown_proc call args fs hv hproc
    unfold processCompleteRecord handle_rpc_message
    simp only [hc, hpa, hp, hd]
  · intro h64 fs reg buffer call hc hm
    obtain ⟨hx, hlen⟩ := deserialize_call_inv hc
    have herr : ∃ e, handle_rpc_message h64 fs reg buffer = .error e := by
      unfold handle_rpc_message
      simp only [hc]
      cases hpa : parseAuthArgs buffer with
      | error e => exact ⟨e, rfl⟩
      | ok args =>
        rcases hm with ⟨hp, hv, hproc⟩ | ⟨hp, hv, hproc⟩ <;> rw [hp]
        · exact mount_unknown_proc hp hv hproc
        · exact portmap_unknown_proc hp hv hproc
    obtain ⟨e, he⟩ := herr
    rw [hx]
    exact processRecord_of_error (by omega) he

/-- C3 witness: the amended behaviour evaluated on a version-2 NFS CALL and
an NFS CALL for (nonexistent) procedure 22. -/
theorem version_proc_mismatch_actual_replies_witness :
    deserialize_call (mkCallRecord 7 100003 2 0 []) =
      .ok ⟨7, 100003, 2, 0⟩ ∧
    processCompleteRecord h640 fsNop reg0 (mkCallRecord 7 100003 2 0 []) =
      some (create_prog_unavail_reply 7) ∧
    processCompleteRecord h640 fsNop reg0 (mkCallRecord 7 100003 3 22 []) =
      some (create_success_reply_with_data 7 (packI32 NFS3ERR_NOTSUPP)) :=
  ⟨by decide,
   version_proc_mismatch_actual_replies.1 h640 fsNop reg0
     (mkCallRecord 7 100003 2 0 []) ⟨7, 100003, 2, 0⟩ (by decide)
     (Or.inl ⟨rfl, by decide⟩),
   version_proc_mismatch_actual_replies.2.1 h640 fsNop reg0
     (mkCallRecord 7 100003 3 22 []) [] ⟨7, 100003, 3, 22⟩ (by decide)
     (by decide) rfl rfl (by decide)⟩

/-- C3 counterexample: on a version-2 NFS CALL the accept_stat is
PROG_UNAVAIL (1), not the PROG_MISMATCH (2) the claim requires, and on an
unknown NFS procedure the accept_stat is SUCCESS (0) with an
NFS3ERR_NOTSUPP payload, not PROC_UNAVAIL (3). -/
theorem version_proc_mismatch_counterexample :
    processCompleteRecord h640 fsNop reg0 (mkCallRecord 7 100003 2 0 []) =
      some (create_prog_unavail_reply 7) ∧
    (create_prog_unavail_reply 7).drop 20 = packU32 1 ∧
    packU32 1 ≠ packU32 2 ∧
    processCompleteRecord h640 fsNop reg0 (mkCallRecord 7 100003 3 22 []) =
      some (create_success_reply_with_data 7 (packI32 NFS3ERR_NOTSUPP)) ∧
    ((create_success_reply_with_data 7 (packI32 NFS3ERR_NOTSUPP)).drop 20).take 4
      = packU32 0 ∧
    packU32 0 ≠ packU32 3 := by
  exact ⟨by decide, by decide, by decide, by decide, by decide, by decide⟩

/-- C4 (confirmed).  For every complete record that parses as a CALL, the
connection loop produces exactly one reply, and that reply's first four
bytes are the CALL's xid (handler replies carry it by construction; handler
errors are answered by a PROG_UNAVAIL reply built from the same leading
word).  Records that do not parse as a CALL and are at least 4 bytes long
also get a PROG_UNAVAIL reply; only sub-4-byte records are skipped. -/
theorem call_reply_echoes_xid
    (h64 : Bytes → Nat) (fs : Filesystem) (reg : Registry) (buffer : Bytes)
    (call : RpcCallMsg) (hc : deserialize_call buffer = .ok call) :
    (processCompleteRecord h64 fs reg buffer).map (fun r => r.take 4) =
      some (packU32 call.xid) := by
  obtain ⟨hx, hlen⟩ := deserialize_call_inv hc
  unfold processCompleteRecord
  split
  · rename_i r hr
    simp [handle_rpc_message_xid hr, hx]
  · rw [if_pos (by omega)]
    simp [take4_prog_unavail, hx]

/-- C4 witness: the NFS NULL ping of spec scenario 1. -/
theorem call_reply_echoes_xid_witness :
    deserialize_call (mkCallRecord 7 100003 3 0 []) = .ok ⟨7, 100003, 3, 0⟩ ∧
    (processCompleteRecord h640 fsNop reg0 (mkCallRecord 7 100003 3 0 [])).map
      (fun r => r.take 4) = some (packU32 7) :=
  ⟨by decide, call_reply_echoes_xid h640 fsNop reg0
    (mkCallRecord 7 100003 3 0 []) ⟨7, 100003, 3, 0⟩ (by decide)⟩

/-- C5 (corrected).  What actually happens on argument-decode failures:
(1) every supported NFS procedure handler short-circuits with the decoder's
error before touching the FSAL (its result does not depend on the
filesystem at all); (2) the connection loop answers a failed message with a
PROG_UNAVAIL accept_stat reply — never GARBAGE_ARGS; (3) the PORTMAP
SET/UNSET/GETPORT handlers likewise propagate mapping-decode errors, and
(4) the MOUNT MNT handler propagates dirpath-decode errors, while (5) MOUNT
UMNT swallows them and replies success. -/
theorem decode_failure_prog_unavail_no_fsal :
    (∀ (call : RpcCallMsg) (args : Bytes) (fs fs' : Filesystem) (e : String),
      call.vers = 3 → nfsArgsDecodeErr call.proc_ args = some e →
      dispatch call args fs = .error e ∧
      dispatch call args fs = dispatch call args fs') ∧
    (∀ (h64 : Bytes → Nat) (fs : Filesystem) (reg : Registry)
       (buffer : Bytes) (e : String), 4 ≤ buffer.length →
      handle_rpc_message h64 fs reg buffer = .error e →
      processCompleteRecord h64 fs reg buffer =
        some (create_prog_unavail_reply (beValAt buffer 0))) ∧
    (∀ (call : RpcCallMsg) (args : Bytes) (reg : Registry) (e : String),
      call.prog = 100000 → call.vers = 2 →
      (call.proc_ = 1 ∨ call.proc_ = 2 ∨ call.proc_ = 3) →
      deserialize_mapping args = .error e →
      handle_portmap_call call args reg = .error e) ∧
    (∀ (h64 : Bytes → Nat) (call : RpcCallMsg) (args : Bytes) (e : String),
      call.prog = 100005 → call.vers = 3 → call.proc_ = 1 →
      deserialize_dirpath args = .error e →
      handle_mount_call h64 call args = .error e) ∧
    (∀ (h64 : Bytes → Nat) (call : RpcCallMsg) (args : Bytes) (e : String),
      call.prog = 100005 → call.vers = 3 → call.proc_ = 3 →
      deserialize_dirpath args = .error e →
      handle_mount_call h64 call args = .ok (null_reply call.xid)) := by
  refine ⟨?_, ?_, ?_, ?_, ?_⟩
  · intro call args fs fs' e hv hd
    refine ⟨dispatch_decode_error fs hv hd, ?_⟩
    rw [dispatch_decode_error fs hv hd, dispatch_decode_error fs' hv hd]
  · intro h64 fs reg buffer e hlen he
    exact processRecord_of_error hlen he
  · intro call args reg e hp hv hproc hd
    unfold handle_portmap_call
    rw [if_neg (by simp [hp]), if_neg (by simp [hv])]
    rcases hproc with h | h | h <;> rw [h] <;>
      simp [portmap_set_handle, portmap_unset_handle, portmap_getport_handle,
            hd]
  · intro h64 call args e hp hv hproc hd
    unfold handle_mount_call
    rw [if_neg (by simp [hp]), if_neg (by simp [hv]), hproc]
    simp [mnt_handle, hd]
  · intro h64 call args e hp hv hproc hd
    unfold handle_mount_call
    rw [if_neg (by simp [hp]), if_neg (by simp [hv]), hproc]
    simp [umnt_handle, hd]

/-- C5 witness: a GETATTR CALL with empty argument bytes fails to decode,
the handler result is filesystem-independent, and the wire reply is
PROG_UNAVAIL. -/
theorem decode_failure_prog_unavail_no_fsal_witness :
    nfsArgsDecodeErr 1 [] = some "failed to unpack GETATTR3args" ∧
    dispatch ⟨7, 100003, 3, 1⟩ [] fsNop =
      .error "failed to unpack GETATTR3args" ∧
    processCompleteRecord h640 fsNop reg0 (mkCallRecord 7 100003 3 1 []) =
      some (create_prog_unavail_reply 7) :=
  ⟨by decide,
   (decode_failure_prog_unavail_no_fsal.1 ⟨7, 100003, 3, 1⟩ [] fsNop fsNop
     "failed to unpack GETATTR3args" rfl (by decide)).1,
   decode_failure_prog_unavail_no_fsal.2.1 h640 fsNop reg0
     (mkCallRecord 7 100003 3 1 []) "failed to unpack GETATTR3args"
     (by decide) (by decide)⟩

/-- C5 counterexample: for a GETATTR CALL whose argument bytes fail to
decode, the server's reply carries accept_stat PROG_UNAVAIL (1), not the
GARBAGE_ARGS (4) the claim requires. -/
theorem decode_failure_counterexample :
    processCompleteRecord h640 fsNop reg0 (mkCallRecord 7 100003 3 1 []) =
      some (create_prog_unavail_reply 7) ∧
    (create_prog_unavail_reply 7).drop 20 = packU32 1 ∧
    packU32 1 ≠ packU32 4 := by
  exact ⟨by decide, by decide, by decide⟩

theorem lastN_append (xs v : Bytes) (hv : v.length = 8) :
    lastN 8 (xs ++ v) = v := by
  unfold lastN
  rw [List.length_append, hv, Nat.add_sub_cancel]
  exact List.drop_left xs v

theorem payloadStatus_success (xid : Nat) (p : Bytes) :
    payloadStatus (create_success_reply_with_data xid p) = p.take 4 := rfl

theorem take4_packI32 (st : Int) (x : Bytes) :
    (packI32 st ++ x).take 4 = packI32 st := rfl

theorem take4_write_err (st : Int) :
    (create_write_error_response st).take 4 = packI32 st := rfl

theorem writeErrStatus_ne (e : String) :
    packI32 (writeErrStatus e) ≠ packI32 NFS3_OK := by
  unfold writeErrStatus
  split_ifs <;> decide

theorem commitErrStatus_ne (e : String) :
    packI32 (commitErrStatus e) ≠ packI32 NFS3_OK := by
  unfold commitErrStatus
  simp only []
  split_ifs <;> decide

/-- C1 (code bug).  Every successful WRITE reply ends in the verifier bytes
`00 01 02 03 04 05 06 07` hardcoded in `nfs/write.rs`, while every
successful COMMIT reply ends in the eight zero bytes hardcoded in
`nfs/commit.rs`; the two verifiers are never byte-identical, contradicting
the spec's single server-lifetime verifier. -/
theorem write_commit_verifier_differs
    (xid₁ xid₂ : Nat) (a₁ a₂ : Bytes) (fs₁ fs₂ : Filesystem) (r₁ r₂ : Bytes)
    (hw : handle_write xid₁ a₁ fs₁ = .ok r₁)
    (hws : payloadStatus r₁ = packI32 NFS3_OK)
    (hc : handle_commit xid₂ a₂ fs₂ = .ok r₂)
    (hcs : payloadStatus r₂ = packI32 NFS3_OK) :
    lastN 8 r₁ = writeVerfWRITE ∧ lastN 8 r₂ = writeVerfCOMMIT ∧
    lastN 8 r₁ ≠ lastN 8 r₂ := by
  have h1 : lastN 8 r₁ = writeVerfWRITE := by
    unfold handle_write at hw
    split at hw
    · exact absurd hw (by simp)
    · split at hw
      · cases hw
        rw [payloadStatus_success, take4_write_err] at hws
        exact absurd hws (writeErrStatus_ne _)
      · split at hw
        · cases hw
          rw [payloadStatus_success, take4_write_err] at hws
          exact absurd hws (by decide)
        · cases hw
          simp only [create_success_reply_with_data, ← List.append_assoc]
          exact lastN_append _ _ rfl
  have h2 : lastN 8 r₂ = writeVerfCOMMIT := by
    unfold handle_commit at hc
    try simp only [] at hc
    split at hc
    · exact absurd hc (by simp)
    · split at hc
      · unfold create_commit_response at hc
        try simp only [] at hc
        split at hc
        · cases hc
          simp only [create_success_reply_with_data, ← List.append_assoc]
          exact lastN_append _ _ rfl
        · rename_i hcond
          first
            | exact absurd rfl hcond
            | exact absurd trivial hcond
      · unfold create_commit_response at hc
        try simp only [] at hc
        split at hc
        · exact absurd hc (by simp)
        · cases hc
          rw [payloadStatus_success] at hcs
          rw [List.append_assoc] at hcs
          rw [take4_packI32] at hcs
          exact absurd hcs (commitErrStatus_ne _)
  refine ⟨h1, h2, ?_⟩
  rw [h1, h2]
  decide

/-- C1 witness: a concrete successful WRITE and COMMIT against the trivial
backend; their verifier bytes differ. -/
theorem write_commit_verifier_differs_witness :
    handle_write 7 wargsW fsNop = .ok replyW ∧
    payloadStatus replyW = packI32 NFS3_OK ∧
    handle_commit 9 cargsW fsNop = .ok replyC ∧
    payloadStatus replyC = packI32 NFS3_OK ∧
    lastN 8 replyW ≠ lastN 8 replyC :=
  ⟨by decide, by decide, by decide, by decide,
   (write_commit_verifier_differs 7 9 wargsW cargsW fsNop fsNop replyW replyC
     (by decide) (by decide) (by decide) (by decide)).2.2⟩

/-- C2 (code bug).  A successful MNT reply carries
`generate_file_handle h64 dirpath` — the 64-bit dirpath hash followed by the
dirpath length and zeros — not the root handle the handle directory
allocated.  The handle varies with the dirpath (bytes 8..12 hold the dirpath
length), differs from `LocalFilesystem::new`'s root handle (whose bytes 0..8
hold the id 1), and is not registered in the handle directory, so NFS
procedures cannot resolve it. -/
theorem mnt_returns_unregistered_path_hash_handle :
    (∀ (h64 : Bytes → Nat) (call : RpcCallMsg),
      mnt_handle h64 call (packOpaqueVar [47]) =
        .ok (null_reply call.xid ++
          serialize_mountres3_ok (generate_file_handle h64 [47]))) ∧
    (∀ h64 : Bytes → Nat,
      generate_file_handle h64 [47] ≠ generate_file_handle h64 [47, 120]) ∧
    generate_file_handle h640 [47, 101] ≠
      (LocalFilesystem.new h640 [47, 101]).root_handle ∧
    (LocalFilesystem.new h640 [47, 101]).hm.lookup_path
      (generate_file_handle h640 [47, 101]) = none := by
  refine ⟨fun h64 call => rfl, fun h64 => ?_, by decide, by decide⟩
  unfold generate_file_handle
  intro hEq
  have h11 := congrArg (fun l => l.get? 11) hEq
  simp [be64, be32] at h11

/-- C6 (corrected).  The record-reading loop enforces no per-record size
cap: whenever the stream holds at least as many body bytes as the 31-bit
length field demands, the fragment is read in full, whatever its length. -/
theorem record_read_accepts_any_fragment_length
    (b0 b1 b2 b3 : Nat) (rest : Bytes)
    (h : ¬ rest.length < recordMarkLen b0 b1 b2 b3) :
    readFragment (b0 :: b1 :: b2 :: b3 :: rest) =
      some (recordMarkLast b0 b1 b2 b3,
            rest.take (recordMarkLen b0 b1 b2 b3),
            rest.drop (recordMarkLen b0 b1 b2 b3)) := by
  simp only [readFragment]
  rw [if_neg h]

/-- C6 witness: a 2-byte fragment is read in full. -/
theorem record_read_accepts_any_fragment_length_witness :
    readFragment [128, 0, 0, 2, 5, 6] = some (true, [5, 6], []) :=
  record_read_accepts_any_fragment_length 128 0 0 2 [5, 6] (by decide)

/-- C6 counterexample: a record whose header announces `2 ^ 24 + 1` bytes —
more than the claimed 16 MiB cap — is accepted and its body read in full
rather than rejected with the connection closed. -/
theorem record_oversize_fragment_accepted :
    readFragment (129 :: 0 :: 0 :: 1 :: List.replicate (2 ^ 24 + 1) 0) =
      some (true, List.replicate (2 ^ 24 + 1) 0, []) ∧
    16 * 2 ^ 20 < recordMarkLen 129 0 0 1 := by
  have hlen : recordMarkLen 129 0 0 1 = 2 ^ 24 + 1 := by decide
  have hlast : recordMarkLast 129 0 0 1 = true := by decide
  refine ⟨?_, by decide⟩
  simp only [readFragment]
  rw [hlen, hlast, List.length_replicate, if_neg (lt_irrefl _),
      List.take_replicate, List.drop_replicate, min_self, Nat.sub_self,
      List.replicate_zero]

/-- C7 (confirmed).  post_op_attr wire discipline: the FALSE arm is exactly
`00 00 00 00`, the TRUE arm is exactly `00 00 00 01` followed by the 84-byte
fattr3, and the READ error response places the FALSE arm after the status. -/
theorem post_op_attr_wire_discipline :
    encodePostOpAttr none = [0, 0, 0, 0] ∧
    (∀ a, encodePostOpAttr (some a) = [0, 0, 0, 1] ++ packFattr3 a) ∧
    (∀ a, (packFattr3 a).length = 84) ∧
    (∀ st : Int, create_read_error_response st = packI32 st ++ [0, 0, 0, 0]) :=
  ⟨rfl, fun _ => rfl, fun _ => rfl, fun _ => rfl⟩

/-- C8 (confirmed).  `create_handle` is idempotent: a second call with the
same path returns the handle the first call allocated, byte for byte, and
leaves the manager state unchanged. -/
theorem create_handle_idempotent (hashP : Bytes → Nat) (s : HMState)
    (p : Bytes) :
    create_handle hashP (create_handle hashP s p).2 p =
      ((create_handle hashP s p).1, (create_handle hashP s p).2) := by
  unfold create_handle
  cases hf : alFind p s.path_to_handle with
  | some h => simp [hf]
  | none => simp [hf, alInsert, alFind]

/-- C9 (code bug).  A successful `LocalFilesystem::remove` returns the
filesystem state unchanged — `remove_handle` is never called — so the
removed file's handle stays registered: concretely, after removing "f" from
the export root "/e", the handle for "/e/f" still resolves to its path
instead of becoming stale. -/
theorem remove_leaves_handle_mapped :
    (∀ (validate : Bytes → Bool) (os : List Bytes) (st : LfsState)
      (dh n : Bytes) (os2 : List Bytes) (st2 : LfsState),
      LocalFilesystem.remove validate os st dh n = .ok (os2, st2) →
      st2 = st) ∧
    LocalFilesystem.remove (fun _ => true) [[47, 101, 47, 102]] lfsE
      lfsE.root_handle [102] = .ok ([], lfsE) ∧
    lfsE.hm.lookup_path fhF = some [47, 101, 47, 102] := by
  refine ⟨?_, by decide, by decide⟩
  intro validate os st dh n os2 st2 h
  unfold LocalFilesystem.remove at h
  try simp only [] at h
  repeat' split at h
  all_goals first | (cases h; rfl) | exact absurd h (by simp)

/-- C9 witness: the state-preservation conjunct evaluated on the concrete
removal of "/e/f". -/
theorem remove_leaves_handle_mapped_witness :
    LocalFilesystem.remove (fun _ => true) [[47, 101, 47, 102]] lfsE
      lfsE.root_handle [102] = .ok ([], lfsE) ∧ lfsE = lfsE :=
  ⟨by decide,
   remove_leaves_handle_mapped.1 (fun _ => true) [[47, 101, 47, 102]] lfsE
     lfsE.root_handle [102] [] lfsE (by decide)⟩

theorem alFind_nil (k : Bytes) : alFind k [] = none := rfl

theorem alFind_cons (k a b : Bytes) (t : List (Bytes × Bytes)) :
    alFind k ((a, b) :: t) = if a = k then some b else alFind k t := rfl

theorem alErase_cons (j a b : Bytes) (t : List (Bytes × Bytes)) :
    alErase j ((a, b) :: t) =
      if a = j then alErase j t else (a, b) :: alErase j t := by
  rw [alErase, List.filter_cons]
  by_cases h : a = j
  · rw [if_neg (by simp [h]), if_pos h]; rfl
  · rw [if_pos (by simp [h]), if_neg h]; rfl

theorem alFind_mem {k v : Bytes} {l : List (Bytes × Bytes)}
    (h : alFind k l = some v) : (k, v) ∈ l := by
  induction l with
  | nil => simp [alFind] at h
  | cons e t ih =>
    obtain ⟨a, b⟩ := e
    rw [alFind_cons] at h
    split at h
    · rename_i hak
      cases h
      exact hak ▸ List.mem_cons_self _ _
    · exact List.mem_cons_of_mem _ (ih h)

theorem alFind_erase (k j : Bytes) (l : List (Bytes × Bytes)) :
    alFind k (alErase j l) = if k = j then none else alFind k l := by
  induction l with
  | nil =>
    rw [alErase, List.filter_nil, alFind_nil]
    split <;> rfl
  | cons e t ih =>
    obtain ⟨a, b⟩ := e
    rw [alErase_cons]
    by_cases haj : a = j
    · rw [if_pos haj, ih, alFind_cons]
      by_cases hkj : k = j
      · rw [if_pos hkj, if_pos hkj]
      · rw [if_neg hkj, if_neg hkj,
            if_neg (fun h : a = k => hkj (h.symm.trans haj))]
    · rw [if_neg haj, alFind_cons, alFind_cons]
      by_cases hak : a = k
      · rw [if_pos hak, if_pos hak,
            if_neg (fun h : k = j => haj (hak.trans h))]
      · rw [if_neg hak, if_neg hak, ih]

theorem alFind_insert (k j v : Bytes) (l : List (Bytes × Bytes)) :
    alFind k (alInsert j v l) = if j = k then some v else alFind k l := by
  rw [alInsert, alFind_cons, alFind_erase]
  by_cases hjk : j = k
  · rw [if_pos hjk, if_pos hjk]
  · rw [if_neg hjk, if_neg hjk, if_neg (fun h : k = j => hjk h.symm)]

theorem take8_be64 (n : Nat) (t u : Bytes) :
    ((be64 n ++ t) ++ u).take 8 = be64 n := rfl

theorem take8_be64_append (n : Nat) (t : Bytes) :
    (be64 n ++ t).take 8 = be64 n := rfl

theorem be64_inj {a b : Nat} (ha : a < 2 ^ 64) (hb : b < 2 ^ 64)
    (h : be64 a = be64 b) : a = b := by
  unfold be64 at h
  simp only [List.cons.injEq, and_true] at h
  omega

theorem create_handle_preserves (hashP : Bytes → Nat) (s : HMState)
    (p : Bytes) (hnext : s.next_id + 1 < 2 ^ 64)
    (hinv : MutualInv s) (hids : IdsFresh s) (h32 : Handles32 s) :
    MutualInv (create_handle hashP s p).2 ∧
    IdsFresh (create_handle hashP s p).2 ∧
    Handles32 (create_handle hashP s p).2 ∧
    (create_handle hashP s p).2.next_id ≤ s.next_id + 1 := by
  unfold create_handle
  cases hf : alFind p s.path_to_handle with
  | some h0 => exact ⟨hinv, hids, h32, Nat.le_succ _⟩
  | none =>
    simp only []
    have hmod : (s.next_id + 1) % 2 ^ 64 = s.next_id + 1 :=
      Nat.mod_eq_of_lt hnext
    have hfresh :
        alFind (be64 s.next_id ++ be64 (hashP p) ++ List.replicate 16 0)
          s.handle_to_path = none := by
      cases hcase : alFind (be64 s.next_id ++ be64 (hashP p) ++
          List.replicate 16 0) s.handle_to_path with
      | none => rfl
      | some q =>
        obtain ⟨id, tail, hid, heq⟩ := hids _ (alFind_mem hcase)
        have h8 := congrArg (List.take 8) heq
        rw [take8_be64, take8_be64_append] at h8
        have := be64_inj (by omega) (by omega) h8
        omega
    refine ⟨?_, ?_, ⟨?_, ?_⟩, ?_⟩
    · intro h q
      simp only [MutualInv] at hinv
      simp only [alFind_insert]
      by_cases hh : (be64 s.next_id ++ be64 (hashP p) ++
          List.replicate 16 0) = h
      · rw [if_pos hh]
        by_cases hq : p = q
        · rw [if_pos hq]
          constructor
          · intro _
            rw [hh]
          · intro _
            rw [hq]
        · rw [if_neg hq]
          constructor
          · intro hpq
            exact absurd (Option.some.inj hpq) hq
          · intro hr
            have := (hinv h q).mpr hr
            rw [← hh, hfresh] at this
            cases this
      · rw [if_neg hh]
        by_cases hq : p = q
        · rw [if_pos hq]
          subst hq
          constructor
          · intro hl
            have := (hinv h p).mp hl
            rw [hf] at this
            cases this
          · intro hr
            exact absurd (Option.some.inj hr) hh
        · rw [if_neg hq]
          exact hinv h q
    · intro e he
      simp only [hmod]
      rw [alInsert] at he
      cases List.mem_cons.1 he with
      | inl h =>
        subst h
        exact ⟨s.next_id, be64 (hashP p) ++ List.replicate 16 0,
          by omega, by rw [List.append_assoc]⟩
      | inr h =>
        obtain ⟨id, tail, hid, heq⟩ := hids e (List.mem_of_mem_filter h)
        exact ⟨id, tail, by omega, heq⟩
    · intro e he
      rw [alInsert] at he
      cases List.mem_cons.1 he with
      | inl h =>
        subst h
        simp [be64]
      | inr h =>
        exact h32.1 e (List.mem_of_mem_filter h)
    · intro e he
      rw [alInsert] at he
      cases List.mem_cons.1 he with
      | inl h =>
        subst h
        simp [be64]
      | inr h =>
        exact h32.2 e (List.mem_of_mem_filter h)
    · exact le_of_eq hmod

theorem remove_handle_preserves (s : HMState) (h0 : Bytes)
    (hinv : MutualInv s) (hids : IdsFresh s) (h32 : Handles32 s) :
    MutualInv (remove_handle s h0).2 ∧
    IdsFresh (remove_handle s h0).2 ∧
    Handles32 (remove_handle s h0).2 ∧
    (remove_handle s h0).2.next_id = s.next_id := by
  unfold remove_handle
  cases hf : alFind h0 s.handle_to_path with
  | none => exact ⟨hinv, hids, h32, rfl⟩
  | some p0 =>
    refine ⟨?_, ?_, ⟨?_, ?_⟩, rfl⟩
    · intro h q
      simp only [alFind_erase]
      by_cases hh : h = h0
      · rw [if_pos hh]
        by_cases hq : q = p0
        · rw [if_pos hq]
          simp
        · rw [if_neg hq]
          constructor
          · intro hn; cases hn
          · intro hr
            subst hh
            have := (hinv h q).mpr hr
            rw [hf] at this
            exact absurd (Option.some.inj this).symm hq
      · rw [if_neg hh]
        by_cases hq : q = p0
        · rw [if_pos hq]
          subst hq
          constructor
          · intro hl
            have h1 := (hinv h q).mp hl
            have h2 := (hinv h0 q).mp hf
            exact absurd (Option.some.inj (h1.symm.trans h2)) hh
          · intro hn; cases hn
        · rw [if_neg hq]
          exact hinv h q
    · intro e he
      exact hids e (List.mem_of_mem_filter he)
    · intro e he
      exact h32.1 e (List.mem_of_mem_filter he)
    · intro e he
      exact h32.2 e (List.mem_of_mem_filter he)

theorem runOps_invariant (hashP : Bytes → Nat) :
    ∀ (ops : List HMOp) (s : HMState),
      s.next_id + ops.length < 2 ^ 64 →
      MutualInv s → IdsFresh s → Handles32 s →
      MutualInv (ops.foldl (applyOp hashP) s) ∧
      Handles32 (ops.foldl (applyOp hashP) s)
  | [], _, _, hinv, _, h32 => ⟨hinv, h32⟩
  | op :: rest, s, hb, hinv, hids, h32 => by
    rw [List.foldl_cons]
    rw [List.length_cons] at hb
    cases op with
    | create p =>
      obtain ⟨hi, hf, h3, hn⟩ :=
        create_handle_preserves hashP s p (by omega) hinv hids h32
      exact runOps_invariant hashP rest ((create_handle hashP s p).2)
        (by omega) hi hf h3
    | remove h =>
      obtain ⟨hi, hf, h3, hn⟩ := remove_handle_preserves s h hinv hids h32
      exact runOps_invariant hashP rest ((remove_handle s h).2)
        (by omega) hi hf h3

/-- C10 (confirmed).  After any sequence of `create_handle` and
`remove_handle` calls short enough that the u64 id counter cannot wrap, the
two maps are mutual inverses and every stored handle is exactly 32 bytes. -/
theorem handle_maps_mutual_inverses (hashP : Bytes → Nat) (ops : List HMOp)
    (hops : ops.length < 2 ^ 64 - 1) :
    MutualInv (runOps hashP ops) ∧ Handles32 (runOps hashP ops) := by
  unfold runOps
  refine runOps_invariant hashP ops HMState.initial
    (by simp [HMState.initial]; omega) ?_ ?_ ?_
  · intro h p
    simp [HMState.initial, alFind]
  · intro e he
    simp [HMState.initial] at he
  · constructor <;> intro e he <;> simp [HMState.initial] at he

/-- C10 witness: the invariants hold after two creations and a removal. -/
theorem handle_maps_mutual_inverses_witness :
    ops0.length < 2 ^ 64 - 1 ∧
    MutualInv (runOps h640 ops0) ∧ Handles32 (runOps h640 ops0) :=
  ⟨by decide, handle_maps_mutual_inverses h640 ops0 (by decide)⟩

end ArcticWolf
